import Mathlib

/-!
A shallow embedding of `sr_router.c`.

The packet buffer is a list of bytes (`List Nat`, every element below 256).
The host is little-endian, as on the x86 machines the router runs on: a
`uint16_t` or `uint32_t` field of a header is loaded from and stored to the
buffer least-significant byte first, and `htons`/`ntohs` swap the two bytes of
a 16-bit value.  Addresses (`ip_src`, `ip_dst`, `s_addr`, `ar_sip`, ...) are kept
the way the C code keeps them: as the `uint32_t` the host loads from the
network-order bytes.

`sr_router.c` calls into files that are not part of the sources at hand
(`sr_if.c`, `sr_arpcache.c`, `sr_utils.c`, `sr_vns_comm.c`, `sr_protocol.h`).
Pure queries of those files are modelled from the specification; calls with an
effect (`sr_send_packet`, `sr_arpcache_queuereq` + `handle_arpreq`,
`sr_arpcache_insert`, `sr_arpreq_destroy`) are recorded, in program order, in
the list of `Action`s a call returns.  A result `none` stands for an aborted
run: a failed `assert` or a dereferenced null pointer.
-/

namespace SrRouter

/-! ## Data model -/

/-- Interface record (`struct sr_if`): name, 6-byte Ethernet address, IPv4 address. -/
structure sr_if where
  name : String
  addr : List Nat
  ip : Nat
deriving DecidableEq, Repr

/-- Routing table entry (`struct sr_rt`); `dest`, `gw`, `mask` are the `s_addr` words. -/
structure sr_rt where
  dest : Nat
  gw : Nat
  mask : Nat
  interface : String
deriving DecidableEq, Repr

/-- Resolved ARP cache entry (`struct sr_arpentry`): MAC, IPv4 and insertion time. -/
structure sr_arpentry where
  mac : List Nat
  ip : Nat
  added : Nat
deriving DecidableEq, Repr

/-- Packet waiting on an ARP request (`struct sr_packet`). -/
structure sr_packet where
  buf : List Nat
  len : Nat
  iface : String
deriving DecidableEq, Repr

/-- Pending ARP request (`struct sr_arpreq`) with its queue of packets. -/
structure sr_arpreq where
  ip : Nat
  sent : Nat
  times_sent : Nat
  packets : List sr_packet
deriving DecidableEq, Repr

/-- ARP cache (`struct sr_arpcache`): resolved entries and pending requests. -/
structure sr_arpcache where
  entries : List sr_arpentry
  requests : List sr_arpreq
deriving DecidableEq, Repr

/-- Router instance (`struct sr_instance`): interface list, routing table, ARP
cache, and the clock reading `now` (seconds) that holds during one call. -/
structure sr_instance where
  if_list : List sr_if
  routing_table : List sr_rt
  cache : sr_arpcache
  now : Nat
deriving DecidableEq, Repr

/-- Effects of `sr_router.c` on its collaborators, in program order. -/
inductive Action where
  /-- The call `sr_send_packet(sr, buf, len, iface)`. -/
  | send (buf : List Nat) (len : Nat) (iface : String)
  /-- The call `sr_arpcache_queuereq(&sr->cache, ip, buf, len, iface)` followed by
  `handle_arpreq(sr, req)` on the request it returns. -/
  | queue (ip : Nat) (buf : List Nat) (len : Nat) (iface : String)
  /-- The call `sr_arpcache_insert(&sr->cache, mac, ip)`. -/
  | insert (mac : List Nat) (ip : Nat)
  /-- The call `sr_arpreq_destroy(&sr->cache, req)` on the request for `ip`. -/
  | destroy (ip : Nat)
deriving DecidableEq, Repr

/-! ## Longest prefix match -/

/-- Loop of `longest_prefix_match`: `walker` runs over the remaining entries,
`longest` and `len` are the loop variables of the source. -/
def lpm_loop (dest_addr : Nat) : List sr_rt → Option sr_rt → Nat → Option sr_rt
  | [], longest, _ => longest
  | walker :: next, longest, len =>
    if (walker.dest &&& walker.mask) = (dest_addr &&& walker.mask) then
      if (walker.mask &&& dest_addr) > len then
        lpm_loop dest_addr next (some walker) (walker.mask &&& dest_addr)
      else lpm_loop dest_addr next longest len
    else lpm_loop dest_addr next longest len

/-- The function `longest_prefix_match(sr, dest_addr)`; `none` is the failed
`assert(dest_addr)`, `some none` the null pointer returned when nothing was
selected. -/
def longest_prefix_match (sr : sr_instance) (dest_addr : Nat) : Option (Option sr_rt) :=
  if dest_addr = 0 then none
  else some (lpm_loop dest_addr sr.routing_table none 0)

/-- An entry matches a destination: `(entry.dest & entry.mask) == (dest & entry.mask)`. -/
def rt_matches (e : sr_rt) (dest_addr : Nat) : Prop :=
  (e.dest &&& e.mask) = (dest_addr &&& e.mask)

instance (e : sr_rt) (d : Nat) : Decidable (rt_matches e d) := by
  unfold rt_matches; infer_instance

/-- Host word of the dotted address `a.b.c.d` (network-order bytes loaded by a
little-endian host). -/
def ipv4 (a b c d : Nat) : Nat := a + 2 ^ 8 * b + 2 ^ 16 * c + 2 ^ 24 * d

/-! ## Byte buffers -/

/-- Byte `i` of a buffer (0 past its end). -/
def rd (buf : List Nat) (i : Nat) : Nat := buf.getD i 0

/-- Store of a `uint8_t` at index `i`. -/
def wr (buf : List Nat) (i : Nat) (v : Nat) : List Nat := buf.set i (v % 256)

/-- Load of a `uint16_t` field at offset `off` (little-endian host). -/
def ld16 (buf : List Nat) (off : Nat) : Nat := rd buf off + 2 ^ 8 * rd buf (off + 1)

/-- Store of a `uint16_t` field at offset `off` (little-endian host). -/
def st16 (buf : List Nat) (off : Nat) (v : Nat) : List Nat :=
  wr (wr buf off v) (off + 1) (v / 2 ^ 8)

/-- Load of a `uint32_t` field at offset `off` (little-endian host). -/
def ld32 (buf : List Nat) (off : Nat) : Nat :=
  rd buf off + 2 ^ 8 * rd buf (off + 1) + 2 ^ 16 * rd buf (off + 2) + 2 ^ 24 * rd buf (off + 3)

/-- Store of a `uint32_t` field at offset `off` (little-endian host). -/
def st32 (buf : List Nat) (off : Nat) (v : Nat) : List Nat :=
  wr (wr (wr (wr buf off v) (off + 1) (v / 2 ^ 8)) (off + 2) (v / 2 ^ 16)) (off + 3) (v / 2 ^ 24)

/-- The call `memcpy(dst + doff, src + soff, n)`. -/
def memcpy (dst : List Nat) (doff : Nat) (src : List Nat) (soff : Nat) : Nat → List Nat
  | 0 => dst
  | n + 1 => wr (memcpy dst doff src soff n) (doff + n) (rd src (soff + n))

/-- The call `memset(dst + doff, v, n)`. -/
def memset (dst : List Nat) (doff : Nat) (v : Nat) : Nat → List Nat
  | 0 => dst
  | n + 1 => wr (memset dst doff v n) (doff + n) v

/-- The call `malloc(n)`: a fresh buffer of `n` bytes (zeroed in the model; the
callers overwrite every byte they hand on). -/
def malloc (n : Nat) : List Nat := List.replicate n 0

/-- Byte swap of a 16-bit value: `htons` on a little-endian host. -/
def htons (v : Nat) : Nat := v % 2 ^ 8 * 2 ^ 8 + v / 2 ^ 8 % 2 ^ 8

/-- Byte swap of a 16-bit value: `ntohs` on a little-endian host. -/
def ntohs (v : Nat) : Nat := htons v

/-- Every element of the buffer is a byte. -/
def bytes_ok (buf : List Nat) : Prop := ∀ b ∈ buf, b < 256

instance (buf : List Nat) : Decidable (bytes_ok buf) := by
  unfold bytes_ok; infer_instance

/-! ## Constants of `sr_protocol.h` -/

/-- Modelled from the spec: `sizeof(sr_ethernet_hdr_t)` of the missing
`sr_protocol.h`, Ethernet II: 6 dst + 6 src + 2 EtherType. -/
def sizeof_sr_ethernet_hdr_t : Nat := 14

/-- Modelled from the spec: `sizeof(sr_ip_hdr_t)` of the missing `sr_protocol.h`,
the fixed 20-byte IPv4 header. -/
def sizeof_sr_ip_hdr_t : Nat := 20

/-- Modelled from the spec: `sizeof(sr_icmp_hdr_t)` of the missing
`sr_protocol.h`, the generic 8-byte ICMP header. -/
def sizeof_sr_icmp_hdr_t : Nat := 8

/-- Modelled from the spec: `sizeof(sr_icmp_t3_hdr_t)` of the missing
`sr_protocol.h`, 8 bytes of header plus 28 bytes of original datagram. -/
def sizeof_sr_icmp_t3_hdr_t : Nat := 36

/-- Modelled from the spec: `ETHER_ADDR_LEN` of the missing `sr_protocol.h`. -/
def ETHER_ADDR_LEN : Nat := 6

/-- Modelled from the spec: `ICMP_DATA_SIZE` of the missing `sr_protocol.h`. -/
def ICMP_DATA_SIZE : Nat := 28

/-- Modelled from the spec: `IP_DF` of the missing `sr_protocol.h`, the
don't-fragment flag in the flags/offset half-word. -/
def IP_DF : Nat := 0x4000

/-- Modelled from the spec: `ethertype_arp` of the missing `sr_protocol.h`. -/
def ethertype_arp : Nat := 0x0806

/-- Modelled from the spec: `ethertype_ip` of the missing `sr_protocol.h`. -/
def ethertype_ip : Nat := 0x0800

/-- Modelled from the spec: `arp_op_request` of the missing `sr_protocol.h`. -/
def arp_op_request : Nat := 1

/-- Modelled from the spec: `arp_op_reply` of the missing `sr_protocol.h`. -/
def arp_op_reply : Nat := 2

/-- Modelled from the spec: `ip_protocol_icmp` of the missing `sr_protocol.h`. -/
def ip_protocol_icmp : Nat := 1

/-! ### Field offsets inside a frame

Ethernet: `ether_dhost` 0, `ether_shost` 6, `ether_type` 12.
IPv4 (at 14): `ip_hl`/`ip_v` 14, `ip_tos` 15, `ip_len` 16, `ip_id` 18, `ip_off` 20,
`ip_ttl` 22, `ip_p` 23, `ip_sum` 24, `ip_src` 26, `ip_dst` 30.
ICMP (at 34): `icmp_type` 34, `icmp_code` 35, `icmp_sum` 36; type 3 adds
`unused` 38, `next_mtu` 40, `data` 42.
ARP (at 14): `ar_hrd` 14, `ar_pro` 16, `ar_hln` 18, `ar_pln` 19, `ar_op` 20,
`ar_sha` 22, `ar_sip` 28, `ar_tha` 32, `ar_tip` 38. -/

/-! ## Internet checksum (`sr_utils.c`) -/

/-- Modelled from the spec: 16-bit one's-complement addition with end-around
carry, the step of the missing `cksum`. -/
def oc_add (a b : Nat) : Nat := if a + b > 0xffff then a + b - 0xffff else a + b

/-- Modelled from the spec: one's-complement sum of the `len` bytes at `off`,
taken as big-endian 16-bit words, an odd last byte padded with a zero byte. -/
def oc_sum (buf : List Nat) : Nat → Nat → Nat
  | _, 0 => 0
  | off, 1 => rd buf off * 2 ^ 8
  | off, len + 2 => oc_add (rd buf off * 2 ^ 8 + rd buf (off + 1)) (oc_sum buf (off + 2) len)

/-- Modelled from the spec: `cksum(buf + off, len)` of the missing `sr_utils.c`,
the standard Internet checksum: the complement of the one's-complement sum,
returned in network byte order. -/
def cksum (buf : List Nat) (off len : Nat) : Nat := htons (0xffff - oc_sum buf off len)

/-- Modelled from the spec: `ethertype(buf)` of the missing `sr_utils.c`, the
EtherType field in host byte order. -/
def ethertype (buf : List Nat) : Nat := ntohs (ld16 buf 12)

/-! ## Interface table and ARP cache queries -/

/-- Modelled from the spec: `sr_get_interface(sr, name)` of the missing
`sr_if.c`, lookup of an interface by name. -/
def sr_get_interface (sr : sr_instance) (name : String) : Option sr_if :=
  sr.if_list.find? (fun i => i.name == name)

/-- Modelled from the spec: `sr_get_interface_by_IP(sr, ip)` of the missing
`sr_if.c`, lookup of an interface by IPv4 address. -/
def sr_get_interface_by_IP (sr : sr_instance) (ip : Nat) : Option sr_if :=
  sr.if_list.find? (fun i => i.ip == ip)

/-- Modelled from the spec: `sr_arpcache_lookup(&sr->cache, ip)` of the missing
`sr_arpcache.c`: the entry for `ip` when an unexpired one (age below 15 s)
exists.  Queueing a packet leaves the resolved entries alone, so every lookup
of one call reads the entries the call started with. -/
def sr_arpcache_lookup (sr : sr_instance) (ip : Nat) : Option sr_arpentry :=
  sr.cache.entries.find? (fun e => e.ip == ip && decide (sr.now - e.added < 15))

/-- Modelled from the spec: the value returned by
`sr_arpcache_insert(&sr->cache, mac, ip)` of the missing `sr_arpcache.c`: the
pending request for `ip`, if there is one. -/
def sr_arpcache_insert (sr : sr_instance) (_mac : List Nat) (ip : Nat) : Option sr_arpreq :=
  sr.cache.requests.find? (fun r => r.ip == ip)

/-! ## Packet checks -/

/-- The function `check_eth_packet(packet, len)`. -/
def check_eth_packet (_packet : List Nat) (len : Nat) : Bool :=
  if len < sizeof_sr_ethernet_hdr_t then false else true

/-- The function `check_arp_packet(pkt, len)`. -/
def check_arp_packet (_pkt : List Nat) (_len : Nat) : Bool := true

/-- The function `check_ip_packet(pkt, len)`: the verdict and the buffer it leaves. -/
def check_ip_packet (pkt : List Nat) (len : Nat) : Bool × List Nat :=
  if len < sizeof_sr_ethernet_hdr_t + sizeof_sr_ip_hdr_t then (false, pkt)
  else
    let old_cksm := ld16 pkt 24
    let pkt1 := st16 pkt 24 0
    if old_cksm ≠ cksum pkt1 14 sizeof_sr_ip_hdr_t then (false, pkt1)
    else (true, st16 pkt1 24 old_cksm)

/-- The function `check_icmp_packet(pkt, len)`: the verdict and the buffer it leaves. -/
def check_icmp_packet (pkt : List Nat) (len : Nat) : Bool × List Nat :=
  if len < sizeof_sr_icmp_hdr_t then (false, pkt)
  else
    let old_cksm := ld16 pkt 36
    let pkt1 := st16 pkt 36 0
    let new_cksm := cksum pkt1 34 (ntohs (ld16 pkt1 16) - sizeof_sr_ip_hdr_t)
    if old_cksm ≠ new_cksm then (false, st16 pkt1 36 old_cksm)
    else (true, st16 pkt1 36 old_cksm)

/-! ## ICMP generation -/

/-- The frame `send_icmp3_error` builds in `ret_pkt` before the ARP lookup. -/
def icmp3_frame (type code : Nat) (in_if : sr_if) (orig_pkt : List Nat) : List Nat :=
  let plen := sizeof_sr_ethernet_hdr_t + sizeof_sr_icmp_t3_hdr_t + sizeof_sr_ip_hdr_t
  let ret := malloc plen
  let ret := memcpy ret 6 in_if.addr 0 ETHER_ADDR_LEN
  let ret := memset ret 0 0 ETHER_ADDR_LEN
  let ret := st16 ret 12 (htons ethertype_ip)
  let ret := memcpy ret 0 orig_pkt 6 ETHER_ADDR_LEN
  let ret := wr ret 14 (4 * 16 + rd ret 14 % 16)
  let ret := wr ret 14 (rd ret 14 / 16 * 16 + sizeof_sr_ip_hdr_t / 4)
  let ret := st16 ret 16 (htons (sizeof_sr_ip_hdr_t + sizeof_sr_icmp_t3_hdr_t))
  let ret := wr ret 15 0
  let ret := st16 ret 18 0
  let ret := st16 ret 20 (htons IP_DF)
  let ret := wr ret 22 64
  let ret := wr ret 23 ip_protocol_icmp
  let ret := st16 ret 24 0
  let ret := st32 ret 30 (ld32 orig_pkt 26)
  let ret := st32 ret 26 (if code = 3 then ld32 orig_pkt 30 else in_if.ip)
  let ret := st16 ret 24 (cksum ret 14 sizeof_sr_ip_hdr_t)
  let ret := wr ret 34 type
  let ret := wr ret 35 code
  let ret := st16 ret 40 0
  let ret := st16 ret 38 0
  let ret := memcpy ret 42 orig_pkt 14 ICMP_DATA_SIZE
  let ret := st16 ret 36 0
  st16 ret 36 (cksum ret 34 sizeof_sr_icmp_t3_hdr_t)

/-- The function `send_icmp3_error(type, code, sr, orig_pkt, interface)`. -/
def send_icmp3_error (type code : Nat) (sr : sr_instance) (orig_pkt : List Nat)
    (interface : String) : Option (List Action) :=
  match sr_get_interface sr interface with
  | none => none
  | some in_if =>
    let plen := sizeof_sr_ethernet_hdr_t + sizeof_sr_icmp_t3_hdr_t + sizeof_sr_ip_hdr_t
    let ret := icmp3_frame type code in_if orig_pkt
    match sr_arpcache_lookup sr (ld32 ret 30) with
    | some entry =>
      let ret := memcpy ret 0 entry.mac 0 ETHER_ADDR_LEN
      some [Action.send ret plen in_if.name]
    | none => some [Action.queue (ld32 ret 30) ret plen in_if.name]

/-- The buffer after `send_icmp_echo_reply` has rewritten the headers, before
the ARP lookup. -/
def echo_reply_frame (my_int : sr_if) (pkt : List Nat) : List Nat :=
  let pkt := memcpy pkt 6 my_int.addr 0 ETHER_ADDR_LEN
  let pkt := memset pkt 0 0 ETHER_ADDR_LEN
  let temp := ld32 pkt 30
  let pkt := st32 pkt 30 (ld32 pkt 26)
  let pkt := st32 pkt 26 temp
  let pkt := st16 pkt 24 0
  let pkt := st16 pkt 24 (cksum pkt 14 sizeof_sr_ip_hdr_t)
  let pkt := wr pkt 34 0
  let pkt := wr pkt 35 0
  let pkt := st16 pkt 36 0
  st16 pkt 36 (cksum pkt 34 (ntohs (ld16 pkt 16) - sizeof_sr_ip_hdr_t))

/-- The function `send_icmp_echo_reply(sr, pkt, interface, len)`: the receive
buffer it leaves and its actions. -/
def send_icmp_echo_reply (sr : sr_instance) (pkt : List Nat) (interface : String)
    (len : Nat) : Option (List Nat × List Action) :=
  match sr_get_interface sr interface with
  | none => none
  | some my_int =>
    let pkt := echo_reply_frame my_int pkt
    match sr_arpcache_lookup sr (ld32 pkt 30) with
    | some entry =>
      let pkt1 := memcpy pkt 0 entry.mac 0 ETHER_ADDR_LEN
      some (pkt1, [Action.send pkt1 len interface])
    | none => some (pkt, [Action.queue (ld32 pkt 30) pkt len my_int.name])

/-! ## Forwarding and dispatch -/

/-- The function `forward_ip(sr, pkt, len, interface)`: the receive buffer it
leaves and its actions. -/
def forward_ip (sr : sr_instance) (pkt : List Nat) (len : Nat) (interface : String) :
    Option (List Nat × List Action) :=
  let chk := check_ip_packet pkt len
  if chk.1 = false then some (chk.2, [])
  else
    let pkt := wr chk.2 22 (rd chk.2 22 + 255)
    match (if rd pkt 22 = 0 then send_icmp3_error 11 0 sr pkt interface else some []) with
    | none => none
    | some acts =>
      let pkt := st16 pkt 24 0
      let pkt := st16 pkt 24 (cksum pkt 14 sizeof_sr_ip_hdr_t)
      match longest_prefix_match sr (ld32 pkt 30) with
      | none => none
      | some (some my_int) =>
        match sr_get_interface sr my_int.interface with
        | none => none
        | some my_if =>
          let pkt := memcpy pkt 6 my_if.addr 0 ETHER_ADDR_LEN
          match sr_arpcache_lookup sr (ld32 pkt 30) with
          | some arp_entry =>
            let pkt := memcpy pkt 0 arp_entry.mac 0 ETHER_ADDR_LEN
            some (pkt, acts ++ [Action.send pkt len my_if.name])
          | none => some (pkt, acts ++ [Action.queue (ld32 pkt 30) pkt len my_if.name])
      | some none =>
        match send_icmp3_error 3 0 sr pkt interface with
        | none => none
        | some acts2 => some (pkt, acts ++ acts2)

/-- The function `handle_ip(sr, pkt, len, interface)`: the receive buffer it
leaves and its actions. -/
def handle_ip (sr : sr_instance) (pkt : List Nat) (len : Nat) (interface : String) :
    Option (List Nat × List Action) :=
  let chk := check_ip_packet pkt len
  if chk.1 = false then some (chk.2, [])
  else
    let pkt := chk.2
    match sr_get_interface_by_IP sr (ld32 pkt 30) with
    | some _ =>
      if rd pkt 23 = 1 then
        if rd pkt 34 ≠ 8 then some (pkt, [])
        else
          let chk2 := check_icmp_packet pkt len
          if chk2.1 = false then some (chk2.2, [])
          else send_icmp_echo_reply sr chk2.2 interface len
      else if rd pkt 23 = 0x0006 ∨ rd pkt 23 = 0x0011 then
        match send_icmp3_error 3 3 sr pkt interface with
        | none => none
        | some acts => some (pkt, acts)
      else some (pkt, [])
    | none => forward_ip sr pkt len interface

/-- The function `handle_arp(sr, pkt, interface, len)`: the receive buffer it
leaves and its actions. -/
def handle_arp (sr : sr_instance) (pkt : List Nat) (interface : String) (len : Nat) :
    Option (List Nat × List Action) :=
  if check_arp_packet pkt len = false then some (pkt, [])
  else
    match sr_get_interface_by_IP sr (ld32 pkt 38) with
    | none => some (pkt, [])
    | some my_if =>
      if htons (ld16 pkt 20) = arp_op_request then
        let ret := memcpy (malloc len) 0 pkt 0 len
        match sr_get_interface sr interface with
        | none => none
        | some in_if =>
          let ret := memcpy ret 0 pkt 6 ETHER_ADDR_LEN
          let ret := memcpy ret 6 in_if.addr 0 ETHER_ADDR_LEN
          let ret := st16 ret 12 (ntohs ethertype_arp)
          let ret := st16 ret 20 (ntohs arp_op_reply)
          let ret := memcpy ret 22 my_if.addr 0 ETHER_ADDR_LEN
          let ret := st32 ret 28 my_if.ip
          let ret := memcpy ret 32 pkt 22 ETHER_ADDR_LEN
          let ret := st32 ret 38 (ld32 pkt 28)
          some (pkt, [Action.send ret len interface])
      else if htons (ld16 pkt 20) = arp_op_reply then
        let sha := (pkt.drop 22).take ETHER_ADDR_LEN
        match sr_arpcache_insert sr sha (ld32 pkt 28) with
        | some req =>
          some (pkt, Action.insert sha (ld32 pkt 28) ::
            (req.packets.map (fun walker =>
              Action.send (memcpy walker.buf 0 pkt 22 ETHER_ADDR_LEN) walker.len walker.iface)
              ++ [Action.destroy req.ip]))
        | none => some (pkt, [Action.insert sha (ld32 pkt 28)])
      else some (pkt, [])

/-- The function `sr_handlepacket(sr, packet, len, interface)`, the receive entry
point: the receive buffer it leaves and its actions. -/
def sr_handlepacket (sr : sr_instance) (packet : List Nat) (len : Nat) (interface : String) :
    Option (List Nat × List Action) :=
  if check_eth_packet packet len then
    if ethertype packet = ethertype_arp then handle_arp sr packet interface len
    else if ethertype packet = ethertype_ip then handle_ip sr packet len interface
    else some (packet, [])
  else some (packet, [])

/-! ## Reading a frame back -/

/-- Frame carried by an emitted action (`send` or `queue`). -/
def Action.frame : Action → List Nat
  | Action.send buf _ _ => buf
  | Action.queue _ buf _ _ => buf
  | _ => []

/-- Length handed over with an emitted action. -/
def Action.len : Action → Nat
  | Action.send _ len _ => len
  | Action.queue _ _ len _ => len
  | _ => 0

/-- Interface named by an emitted action. -/
def Action.iface : Action → String
  | Action.send _ _ iface => iface
  | Action.queue _ _ _ iface => iface
  | _ => ""

/-- The action hands a frame to the transport or to the ARP queue. -/
def Action.is_emit : Action → Bool
  | Action.send _ _ _ => true
  | Action.queue _ _ _ _ => true
  | _ => false

/-- Bytes `off .. off + n - 1` of a buffer. -/
def bytes_at (buf : List Nat) (off n : Nat) : List Nat := (buf.drop off).take n

/-! ## Auxiliary definitions for the checksum proofs -/

/-- Plain sum of the big-endian 16-bit words that `oc_sum` adds up. -/
def raw_sum (buf : List Nat) : Nat → Nat → Nat
  | _, 0 => 0
  | off, 1 => rd buf off * 2 ^ 8
  | off, len + 2 => (rd buf off * 2 ^ 8 + rd buf (off + 1)) + raw_sum buf (off + 2) len

/-- Representative in `0 .. 0xffff` of a sum under end-around carry: `0` only for
the sum `0`, otherwise the residue modulo `0xffff` taken in `1 .. 0xffff`. -/
def oc_norm (s : Nat) : Nat := if s = 0 then 0 else (s - 1) % 0xffff + 1

/-- The receive buffer of `forward_ip` after the TTL decrement and the rewrite
of the header checksum (lines 305-311). -/
def fwd_buf (pkt : List Nat) : List Nat :=
  let pkt := wr pkt 22 (rd pkt 22 + 255)
  let pkt := st16 pkt 24 0
  st16 pkt 24 (cksum pkt 14 sizeof_sr_ip_hdr_t)

/-- The buffer of `send_icmp_echo_reply` just before the ICMP checksum is
stored (line 373): headers rewritten, `icmp_sum` zeroed. -/
def echo_reply_zeroed (my_int : sr_if) (pkt : List Nat) : List Nat :=
  let pkt := memcpy pkt 6 my_int.addr 0 ETHER_ADDR_LEN
  let pkt := memset pkt 0 0 ETHER_ADDR_LEN
  let temp := ld32 pkt 30
  let pkt := st32 pkt 30 (ld32 pkt 26)
  let pkt := st32 pkt 26 temp
  let pkt := st16 pkt 24 0
  let pkt := st16 pkt 24 (cksum pkt 14 sizeof_sr_ip_hdr_t)
  let pkt := wr pkt 34 0
  let pkt := wr pkt 35 0
  st16 pkt 36 0

/-! ## Concrete router configurations and frames -/

/-- Interface `eth1`: 10.0.1.1, MAC aa:00:00:00:00:01. -/
def demo_eth1 : sr_if := ⟨"eth1", [0xaa, 0, 0, 0, 0, 1], ipv4 10 0 1 1⟩

/-- Interface `eth2`: 10.0.2.1, MAC aa:00:00:00:00:02. -/
def demo_eth2 : sr_if := ⟨"eth2", [0xaa, 0, 0, 0, 0, 2], ipv4 10 0 2 1⟩

/-- Route 20.0.0.0/8 via 10.0.2.2 on `eth2`. -/
def demo_rt : sr_rt := ⟨ipv4 20 0 0 0, ipv4 10 0 2 2, ipv4 255 0 0 0, "eth2"⟩

/-- ARP cache entry 10.0.2.2 -> bb:00:00:00:00:02, inserted at time 100. -/
def demo_entry : sr_arpentry := ⟨[0xbb, 0, 0, 0, 0, 2], ipv4 10 0 2 2, 100⟩

/-- Router of the end-to-end scenarios: `eth1`, `eth2`, the route 20.0.0.0/8 via
10.0.2.2 on `eth2`, the cache entry for 10.0.2.2, clock at 105. -/
def demo_sr : sr_instance := ⟨[demo_eth1, demo_eth2], [demo_rt], ⟨[demo_entry], []⟩, 105⟩

/-- UDP datagram 10.0.1.9 -> 20.1.2.3, TTL 10, valid header checksum, 42 bytes. -/
def frame_fwd : List Nat :=
  [170, 0, 0, 0, 0, 1, 204, 0, 0, 0, 0, 9, 8, 0,
   69, 0, 0, 28, 0, 0, 0, 0, 10, 17, 143, 197, 10, 0, 1, 9, 20, 1, 2, 3,
   0, 53, 0, 53, 0, 8, 0, 0]

/-- UDP datagram 10.0.1.9 -> 20.1.2.3, TTL 1, valid header checksum, 42 bytes. -/
def frame_ttl1 : List Nat :=
  [170, 0, 0, 0, 0, 1, 204, 0, 0, 0, 0, 9, 8, 0,
   69, 0, 0, 28, 0, 0, 0, 0, 1, 17, 152, 197, 10, 0, 1, 9, 20, 1, 2, 3,
   0, 53, 0, 53, 0, 8, 0, 0]

/-- ICMP echo request 10.0.1.9 -> 10.0.1.1, id 7, seq 1, payload "abcd", 46 bytes. -/
def frame_echo : List Nat :=
  [170, 0, 0, 0, 0, 1, 204, 0, 0, 0, 0, 9, 8, 0,
   69, 0, 0, 32, 0, 0, 0, 0, 64, 1, 100, 212, 10, 0, 1, 9, 10, 0, 1, 1,
   8, 0, 51, 49, 0, 7, 0, 1, 97, 98, 99, 100]

/-- UDP datagram 10.0.1.9 -> 10.0.1.1 port 53, TTL 64, 42 bytes. -/
def frame_udp : List Nat :=
  [170, 0, 0, 0, 0, 1, 204, 0, 0, 0, 0, 9, 8, 0,
   69, 0, 0, 28, 0, 0, 0, 0, 64, 17, 100, 200, 10, 0, 1, 9, 10, 0, 1, 1,
   0, 53, 0, 53, 0, 8, 0, 0]

/-- UDP datagram 10.0.1.9 -> 30.0.0.1, TTL 64, 42 bytes. -/
def frame_noroute : List Nat :=
  [170, 0, 0, 0, 0, 1, 204, 0, 0, 0, 0, 9, 8, 0,
   69, 0, 0, 28, 0, 0, 0, 0, 64, 17, 81, 200, 10, 0, 1, 9, 30, 0, 0, 1,
   0, 53, 0, 53, 0, 8, 0, 0]

/-- UDP datagram 10.0.1.9 -> 0.0.0.0, TTL 64, valid header checksum, 42 bytes. -/
def frame_zero_dst : List Nat :=
  [170, 0, 0, 0, 0, 1, 204, 0, 0, 0, 0, 9, 8, 0,
   69, 0, 0, 28, 0, 0, 0, 0, 64, 17, 111, 201, 10, 0, 1, 9, 0, 0, 0, 0,
   0, 53, 0, 53, 0, 8, 0, 0]

/-- Route 10.0.0.0/8 on `eth1`. -/
def rt_slash8 : sr_rt := ⟨ipv4 10 0 0 0, 0, ipv4 255 0 0 0, "eth1"⟩

/-- Route 10.0.0.0/16 on `eth2`. -/
def rt_slash16 : sr_rt := ⟨ipv4 10 0 0 0, 0, ipv4 255 255 0 0, "eth2"⟩

/-- Router whose table lists 10.0.0.0/8 before 10.0.0.0/16. -/
def nested_sr : sr_instance := ⟨[demo_eth1, demo_eth2], [rt_slash8, rt_slash16], ⟨[], []⟩, 0⟩

/-- Default route 0.0.0.0/0 via 10.0.2.2 on `eth2`. -/
def rt_default : sr_rt := ⟨0, ipv4 10 0 2 2, 0, "eth2"⟩

/-- Router whose table holds only the default route. -/
def default_sr : sr_instance := ⟨[demo_eth1, demo_eth2], [rt_default], ⟨[], []⟩, 0⟩

/-- The frame `frame_fwd` as `forward_ip` leaves it: Ethernet source aa:..:02,
TTL 9, checksum rewritten, Ethernet destination as received. -/
def frame_fwd_out : List Nat :=
  [170, 0, 0, 0, 0, 1, 170, 0, 0, 0, 0, 2, 8, 0,
   69, 0, 0, 28, 0, 0, 0, 0, 9, 17, 144, 197, 10, 0, 1, 9, 20, 1, 2, 3,
   0, 53, 0, 53, 0, 8, 0, 0]

/-- The frame `frame_ttl1` as `forward_ip` leaves it: Ethernet source aa:..:02,
TTL 0, checksum rewritten. -/
def frame_ttl1_out : List Nat :=
  [170, 0, 0, 0, 0, 1, 170, 0, 0, 0, 0, 2, 8, 0,
   69, 0, 0, 28, 0, 0, 0, 0, 0, 17, 153, 197, 10, 0, 1, 9, 20, 1, 2, 3,
   0, 53, 0, 53, 0, 8, 0, 0]

/-- The ICMP Time Exceeded frame built for `frame_ttl1`: 10.0.1.1 -> 10.0.1.9,
type 11, code 0, 70 bytes. -/
def frame_ttl1_icmp : List Nat :=
  [204, 0, 0, 0, 0, 9, 170, 0, 0, 0, 0, 1, 8, 0,
   69, 0, 0, 56, 0, 0, 64, 0, 64, 1, 36, 188, 10, 0, 1, 1, 10, 0, 1, 9,
   11, 0, 245, 141, 0, 0, 0, 0,
   69, 0, 0, 28, 0, 0, 0, 0, 0, 17, 152, 197, 10, 0, 1, 9, 20, 1, 2, 3,
   0, 53, 0, 53, 0, 8, 0, 0]

/-- UDP datagram 10.0.1.9 -> 20.1.2.3, TTL 0, valid header checksum, 42 bytes. -/
def frame_ttl0 : List Nat :=
  [170, 0, 0, 0, 0, 1, 204, 0, 0, 0, 0, 9, 8, 0,
   69, 0, 0, 28, 0, 0, 0, 0, 0, 17, 153, 197, 10, 0, 1, 9, 20, 1, 2, 3,
   0, 53, 0, 53, 0, 8, 0, 0]

/-- The datagram `frame_fwd` with the header checksum bytes replaced by 18, 52. -/
def frame_bad_sum : List Nat :=
  [170, 0, 0, 0, 0, 1, 204, 0, 0, 0, 0, 9, 8, 0,
   69, 0, 0, 28, 0, 0, 0, 0, 10, 17, 18, 52, 10, 0, 1, 9, 20, 1, 2, 3,
   0, 53, 0, 53, 0, 8, 0, 0]

/-- ICMP echo request 10.0.1.9 -> 10.0.1.1 of 38 bytes: IP total length 24, ICMP bytes
type 8, code 0 and a checksum that is valid over these 4 bytes. -/
def frame_short_echo : List Nat :=
  [170, 0, 0, 0, 0, 1, 204, 0, 0, 0, 0, 9, 8, 0,
   69, 0, 0, 24, 0, 0, 0, 0, 64, 1, 100, 220, 10, 0, 1, 9, 10, 0, 1, 1,
   8, 0, 247, 255]

/-- ARP request from 10.0.1.9 (MAC cc:00:00:00:00:09) for 10.0.1.1, 42 bytes. -/
def frame_arp_request : List Nat :=
  [255, 255, 255, 255, 255, 255, 204, 0, 0, 0, 0, 9, 8, 6,
   0, 1, 8, 0, 6, 4, 0, 1, 204, 0, 0, 0, 0, 9, 10, 0, 1, 9, 0, 0,
   0, 0, 0, 0, 10, 0, 1, 1]

/-- ARP reply from 10.0.2.2 (MAC bb:00:00:00:00:02) to 10.0.2.1, 42 bytes. -/
def frame_arp_reply : List Nat :=
  [170, 0, 0, 0, 0, 2, 187, 0, 0, 0, 0, 2, 8, 6,
   0, 1, 8, 0, 6, 4, 0, 2, 187, 0, 0, 0, 0, 2, 10, 0, 2, 2, 170, 0,
   0, 0, 0, 2, 10, 0, 2, 1]

/-- The frame `frame_ttl0` as `forward_ip` leaves it: Ethernet source aa:..:02,
TTL 255, checksum rewritten. -/
def frame_ttl0_out : List Nat :=
  [170, 0, 0, 0, 0, 1, 170, 0, 0, 0, 0, 2, 8, 0,
   69, 0, 0, 28, 0, 0, 0, 0, 255, 17, 154, 196, 10, 0, 1, 9, 20, 1, 2, 3,
   0, 53, 0, 53, 0, 8, 0, 0]

/-- The buffer `check_ip_packet` leaves of `frame_bad_sum`: checksum bytes zeroed. -/
def frame_bad_sum_out : List Nat :=
  [170, 0, 0, 0, 0, 1, 204, 0, 0, 0, 0, 9, 8, 0,
   69, 0, 0, 28, 0, 0, 0, 0, 10, 17, 0, 0, 10, 0, 1, 9, 20, 1, 2, 3,
   0, 53, 0, 53, 0, 8, 0, 0]

/-- The echo reply built in place from `frame_short_echo`: 10.0.1.1 -> 10.0.1.9,
ICMP type 0, code 0, 38 bytes. -/
def frame_short_echo_reply : List Nat :=
  [0, 0, 0, 0, 0, 0, 170, 0, 0, 0, 0, 1, 8, 0,
   69, 0, 0, 24, 0, 0, 0, 0, 64, 1, 100, 220, 10, 0, 1, 1, 10, 0, 1, 9,
   0, 0, 255, 255]

/-- The ICMP Network Unreachable frame built for `frame_noroute`: 10.0.1.1 ->
10.0.1.9, type 3, code 0; its data quotes the header with TTL 63 and the
rewritten checksum 82, 200. -/
def frame_noroute_icmp : List Nat :=
  [204, 0, 0, 0, 0, 9, 170, 0, 0, 0, 0, 1, 8, 0,
   69, 0, 0, 56, 0, 0, 64, 0, 64, 1, 36, 188, 10, 0, 1, 1, 10, 0, 1, 9,
   3, 0, 252, 141, 0, 0, 0, 0,
   69, 0, 0, 28, 0, 0, 0, 0, 63, 17, 82, 200, 10, 0, 1, 9, 30, 0, 0, 1,
   0, 53, 0, 53, 0, 8, 0, 0]

/-- The buffer `forward_ip` leaves of `frame_noroute`: TTL 63, checksum rewritten. -/
def frame_noroute_out : List Nat :=
  [170, 0, 0, 0, 0, 1, 204, 0, 0, 0, 0, 9, 8, 0,
   69, 0, 0, 28, 0, 0, 0, 0, 63, 17, 82, 200, 10, 0, 1, 9, 30, 0, 0, 1,
   0, 53, 0, 53, 0, 8, 0, 0]

/-- The buffer of `send_icmp3_error` just before the IP checksum is stored
(line 435): Ethernet and IP headers written, `ip_sum` zero. -/
def icmp3_ip_zeroed (code : Nat) (in_if : sr_if) (orig_pkt : List Nat) : List Nat :=
  let plen := sizeof_sr_ethernet_hdr_t + sizeof_sr_icmp_t3_hdr_t + sizeof_sr_ip_hdr_t
  let ret := malloc plen
  let ret := memcpy ret 6 in_if.addr 0 ETHER_ADDR_LEN
  let ret := memset ret 0 0 ETHER_ADDR_LEN
  let ret := st16 ret 12 (htons ethertype_ip)
  let ret := memcpy ret 0 orig_pkt 6 ETHER_ADDR_LEN
  let ret := wr ret 14 (4 * 16 + rd ret 14 % 16)
  let ret := wr ret 14 (rd ret 14 / 16 * 16 + sizeof_sr_ip_hdr_t / 4)
  let ret := st16 ret 16 (htons (sizeof_sr_ip_hdr_t + sizeof_sr_icmp_t3_hdr_t))
  let ret := wr ret 15 0
  let ret := st16 ret 18 0
  let ret := st16 ret 20 (htons IP_DF)
  let ret := wr ret 22 64
  let ret := wr ret 23 ip_protocol_icmp
  let ret := st16 ret 24 0
  let ret := st32 ret 30 (ld32 orig_pkt 26)
  st32 ret 26 (if code = 3 then ld32 orig_pkt 30 else in_if.ip)

/-- The buffer of `send_icmp3_error` just before the ICMP checksum is stored
(line 444): all headers and the data written, `icmp_sum` zero. -/
def icmp3_icmp_zeroed (type code : Nat) (in_if : sr_if) (orig_pkt : List Nat) : List Nat :=
  let ret := icmp3_ip_zeroed code in_if orig_pkt
  let ret := st16 ret 24 (cksum ret 14 sizeof_sr_ip_hdr_t)
  let ret := wr ret 34 type
  let ret := wr ret 35 code
  let ret := st16 ret 40 0
  let ret := st16 ret 38 0
  let ret := memcpy ret 42 orig_pkt 14 ICMP_DATA_SIZE
  st16 ret 36 0

/-- The reply `handle_arp` builds in `ret_pkt` for an ARP request (lines 145-161):
`my_if` is the interface that owns the target address, `in_if` the inbound one. -/
def arp_reply_frame (my_if in_if : sr_if) (pkt : List Nat) (len : Nat) : List Nat :=
  let ret := memcpy (malloc len) 0 pkt 0 len
  let ret := memcpy ret 0 pkt 6 ETHER_ADDR_LEN
  let ret := memcpy ret 6 in_if.addr 0 ETHER_ADDR_LEN
  let ret := st16 ret 12 (ntohs ethertype_arp)
  let ret := st16 ret 20 (ntohs arp_op_reply)
  let ret := memcpy ret 22 my_if.addr 0 ETHER_ADDR_LEN
  let ret := st32 ret 28 my_if.ip
  let ret := memcpy ret 32 pkt 22 ETHER_ADDR_LEN
  st32 ret 38 (ld32 pkt 28)

/-- Frame queued first behind the pending request of `pending_sr`: `frame_fwd_out`,
waiting on `eth2`. -/
def queued_pkt1 : sr_packet := ⟨frame_fwd_out, 42, "eth2"⟩

/-- Frame queued second behind the pending request of `pending_sr`: `frame_ttl0_out`,
waiting on `eth2`. -/
def queued_pkt2 : sr_packet := ⟨frame_ttl0_out, 42, "eth2"⟩

/-- Pending ARP request for 10.0.2.2, sent once at time 104, holding two packets. -/
def pending_req : sr_arpreq := ⟨ipv4 10 0 2 2, 104, 1, [queued_pkt1, queued_pkt2]⟩

/-- Router with `eth1`, `eth2`, the route 20.0.0.0/8, an empty ARP table and the
pending request `pending_req`. -/
def pending_sr : sr_instance := ⟨[demo_eth1, demo_eth2], [demo_rt], ⟨[], [pending_req]⟩, 105⟩

/-! ## Theorems -/

/-! ### Buffers -/


theorem rd_lt_length_or (buf : List Nat) (i : Nat) (h : buf.length ≤ i) : rd buf i = 0 := by
  unfold rd; simp [List.getD_eq_getElem?_getD, List.getElem?_eq_none h]

@[simp] theorem length_wr (buf : List Nat) (i v : Nat) : (wr buf i v).length = buf.length := by
  simp [wr]

theorem rd_wr (buf : List Nat) (i v j : Nat) :
    rd (wr buf i v) j = if j = i ∧ i < buf.length then v % 256 else rd buf j := by
  unfold rd wr
  by_cases h : j = i
  · subst h
    by_cases hl : j < buf.length
    · simp [List.getD_eq_getElem?_getD, List.getElem?_set, hl]
    · have hl2 : buf.length ≤ j := Nat.le_of_not_lt hl
      simp [List.getD_eq_getElem?_getD, List.getElem?_set, hl, List.getElem?_eq_none hl2]
  · have h2 : ¬ i = j := fun e => h e.symm
    simp [List.getD_eq_getElem?_getD, List.getElem?_set, h, h2]

@[simp] theorem length_st16 (buf : List Nat) (o v : Nat) : (st16 buf o v).length = buf.length := by
  simp [st16]

@[simp] theorem length_st32 (buf : List Nat) (o v : Nat) : (st32 buf o v).length = buf.length := by
  simp [st32]

@[simp] theorem length_memcpy (dst : List Nat) (doff : Nat) (src : List Nat) (soff n : Nat) :
    (memcpy dst doff src soff n).length = dst.length := by
  induction n with
  | zero => rfl
  | succ n ih => simp [memcpy, ih]

@[simp] theorem length_memset (dst : List Nat) (doff v n : Nat) :
    (memset dst doff v n).length = dst.length := by
  induction n with
  | zero => rfl
  | succ n ih => simp [memset, ih]

theorem rd_st16 (buf : List Nat) (o v j : Nat) :
    rd (st16 buf o v) j =
      if j = o + 1 ∧ o + 1 < buf.length then v / 2 ^ 8 % 256
      else if j = o ∧ o < buf.length then v % 256 else rd buf j := by
  simp [st16, rd_wr]

theorem rd_st32 (buf : List Nat) (o v j : Nat) :
    rd (st32 buf o v) j =
      if j = o + 3 ∧ o + 3 < buf.length then v / 2 ^ 24 % 256
      else if j = o + 2 ∧ o + 2 < buf.length then v / 2 ^ 16 % 256
      else if j = o + 1 ∧ o + 1 < buf.length then v / 2 ^ 8 % 256
      else if j = o ∧ o < buf.length then v % 256 else rd buf j := by
  simp [st32, rd_wr]

theorem rd_memcpy (dst : List Nat) (doff : Nat) (src : List Nat) (soff n j : Nat) :
    rd (memcpy dst doff src soff n) j =
      if doff ≤ j ∧ j < doff + n ∧ j < dst.length then rd src (soff + (j - doff)) % 256
      else rd dst j := by
  induction n with
  | zero =>
    have : ¬ (doff ≤ j ∧ j < doff + 0 ∧ j < dst.length) := by omega
    simp only [memcpy, if_neg this]
  | succ n ih =>
    simp only [memcpy, rd_wr, ih, length_memcpy]
    by_cases h1 : j = doff + n
    · subst h1
      by_cases h2 : doff + n < dst.length
      · simp [h2]
      · simp [h2]
    · have : (doff ≤ j ∧ j < doff + (n + 1) ∧ j < dst.length) ↔ (doff ≤ j ∧ j < doff + n ∧ j < dst.length) := by
        constructor <;> rintro ⟨a, b, c⟩ <;> refine ⟨a, ?_, c⟩ <;> omega
      simp [h1, this]

theorem rd_memset (dst : List Nat) (doff v n j : Nat) :
    rd (memset dst doff v n) j =
      if doff ≤ j ∧ j < doff + n ∧ j < dst.length then v % 256 else rd dst j := by
  induction n with
  | zero =>
    have : ¬ (doff ≤ j ∧ j < doff + 0 ∧ j < dst.length) := by omega
    simp only [memset, if_neg this]
  | succ n ih =>
    simp only [memset, rd_wr, ih, length_memset]
    by_cases h1 : j = doff + n
    · subst h1
      by_cases h2 : doff + n < dst.length
      · simp [h2]
      · simp [h2]
    · have : (doff ≤ j ∧ j < doff + (n + 1) ∧ j < dst.length) ↔ (doff ≤ j ∧ j < doff + n ∧ j < dst.length) := by
        constructor <;> rintro ⟨a, b, c⟩ <;> refine ⟨a, ?_, c⟩ <;> omega
      simp [h1, this]

@[simp] theorem length_malloc (n : Nat) : (malloc n).length = n := by simp [malloc]

theorem rd_malloc (n i : Nat) : rd (malloc n) i = 0 := by
  unfold rd malloc
  by_cases h : i < n
  · simp [List.getD_eq_getElem?_getD, List.getElem?_replicate, h]
  · simp [List.getD_eq_getElem?_getD, List.getElem?_replicate, h]

theorem rd_lt_256 (buf : List Nat) (hb : bytes_ok buf) (i : Nat) : rd buf i < 256 := by
  unfold rd
  by_cases h : i < buf.length
  · have : buf.getD i 0 = buf[i] := by simp [List.getD_eq_getElem?_getD, List.getElem?_eq_getElem h]
    rw [this]
    exact hb _ (List.getElem_mem h)
  · have h2 : buf.length ≤ i := Nat.le_of_not_lt h
    simp [List.getD_eq_getElem?_getD, List.getElem?_eq_none h2]

theorem bytes_ok_wr (buf : List Nat) (hb : bytes_ok buf) (i v : Nat) : bytes_ok (wr buf i v) := by
  intro b hmem
  unfold wr at hmem
  rcases List.mem_or_eq_of_mem_set hmem with h | h
  · exact hb b h
  · rw [h]; exact Nat.mod_lt _ (by norm_num)

theorem bytes_ok_st16 (buf : List Nat) (hb : bytes_ok buf) (o v : Nat) : bytes_ok (st16 buf o v) :=
  bytes_ok_wr _ (bytes_ok_wr _ hb _ _) _ _

theorem bytes_ok_st32 (buf : List Nat) (hb : bytes_ok buf) (o v : Nat) : bytes_ok (st32 buf o v) :=
  bytes_ok_wr _ (bytes_ok_wr _ (bytes_ok_wr _ (bytes_ok_wr _ hb _ _) _ _) _ _) _ _

theorem bytes_ok_memcpy (dst : List Nat) (hb : bytes_ok dst) (doff : Nat) (src : List Nat)
    (soff n : Nat) : bytes_ok (memcpy dst doff src soff n) := by
  induction n with
  | zero => exact hb
  | succ n ih => exact bytes_ok_wr _ ih _ _

theorem bytes_ok_memset (dst : List Nat) (hb : bytes_ok dst) (doff v n : Nat) :
    bytes_ok (memset dst doff v n) := by
  induction n with
  | zero => exact hb
  | succ n ih => exact bytes_ok_wr _ ih _ _

theorem bytes_ok_malloc (n : Nat) : bytes_ok (malloc n) := by
  intro b hmem
  unfold malloc at hmem
  rw [List.mem_replicate] at hmem
  omega

theorem ext_rd (a b : List Nat) (hl : a.length = b.length)
    (h : ∀ i, i < a.length → rd a i = rd b i) : a = b := by
  apply List.ext_getElem hl
  intro i h1 h2
  have := h i h1
  unfold rd at this
  simpa [List.getD_eq_getElem?_getD, List.getElem?_eq_getElem h1, List.getElem?_eq_getElem h2] using this

theorem htons_htons (v : Nat) (hv : v < 2 ^ 16) : htons (htons v) = v := by
  unfold htons
  have h1 : (v % 2 ^ 8 * 2 ^ 8 + v / 2 ^ 8 % 2 ^ 8) % 2 ^ 8 = v / 2 ^ 8 := by omega
  have h2 : (v % 2 ^ 8 * 2 ^ 8 + v / 2 ^ 8 % 2 ^ 8) / 2 ^ 8 = v % 2 ^ 8 := by omega
  rw [h1, h2]
  omega

theorem htons_lt (v : Nat) : htons v < 2 ^ 16 := by
  unfold htons; omega

theorem oc_add_norm (a s : Nat) (ha : a ≤ 0xffff) : oc_add a (oc_norm s) = oc_norm (a + s) := by
  unfold oc_add oc_norm
  split_ifs <;> omega

theorem oc_norm_le (s : Nat) : oc_norm s ≤ 0xffff := by
  unfold oc_norm; split_ifs <;> omega

theorem oc_norm_small (s : Nat) (h : s ≤ 0xffff) : oc_norm s = s := by
  unfold oc_norm; split_ifs <;> omega

theorem oc_norm_complement (s : Nat) : oc_norm (s + (0xffff - oc_norm s)) = 0xffff := by
  by_cases hs : s = 0
  · subst hs; decide
  · have h1 : oc_norm s = (s - 1) % 0xffff + 1 := by unfold oc_norm; rw [if_neg hs]
    rw [h1]
    unfold oc_norm
    rw [if_neg (by omega)]
    omega

theorem oc_sum_eq_norm (buf : List Nat) (hb : bytes_ok buf) (len : Nat) :
    ∀ off, oc_sum buf off len = oc_norm (raw_sum buf off len) := by
  induction len using Nat.strong_induction_on with
  | _ len ih =>
    intro off
    match len with
    | 0 => simp [oc_sum, raw_sum, oc_norm]
    | 1 =>
      have := rd_lt_256 buf hb off
      simp only [oc_sum, raw_sum]
      rw [oc_norm_small]; omega
    | n + 2 =>
      have h0 := rd_lt_256 buf hb off
      have h1 := rd_lt_256 buf hb (off + 1)
      simp only [oc_sum, raw_sum]
      rw [ih n (by omega) (off + 2), oc_add_norm]
      omega

theorem raw_sum_congr (a b : List Nat) (len : Nat) :
    ∀ off, (∀ i, off ≤ i → i < off + len → rd a i = rd b i) →
      raw_sum a off len = raw_sum b off len := by
  induction len using Nat.strong_induction_on with
  | _ len ih =>
    intro off h
    match len with
    | 0 => simp [raw_sum]
    | 1 => simp only [raw_sum]; rw [h off (by omega) (by omega)]
    | n + 2 =>
      simp only [raw_sum]
      rw [h off (by omega) (by omega), h (off + 1) (by omega) (by omega),
        ih n (by omega) (off + 2) (fun i h1 h2 => h i (by omega) (by omega))]

theorem oc_sum_congr (a b : List Nat) (len : Nat) :
    ∀ off, (∀ i, off ≤ i → i < off + len → rd a i = rd b i) →
      oc_sum a off len = oc_sum b off len := by
  induction len using Nat.strong_induction_on with
  | _ len ih =>
    intro off h
    match len with
    | 0 => simp [oc_sum]
    | 1 => simp only [oc_sum]; rw [h off (by omega) (by omega)]
    | n + 2 =>
      simp only [oc_sum]
      rw [h off (by omega) (by omega), h (off + 1) (by omega) (by omega),
        ih n (by omega) (off + 2) (fun i h1 h2 => h i (by omega) (by omega))]

theorem cksum_congr (a b : List Nat) (off len : Nat)
    (h : ∀ i, off ≤ i → i < off + len → rd a i = rd b i) : cksum a off len = cksum b off len := by
  unfold cksum; rw [oc_sum_congr a b len off h]

theorem raw_sum_st16 (buf : List Nat) (v : Nat) (m : Nat) :
    ∀ off len, 2 * m + 2 ≤ len → off + 2 * m + 1 < buf.length →
      raw_sum (st16 buf (off + 2 * m) v) off len
          + (rd buf (off + 2 * m) * 2 ^ 8 + rd buf (off + 2 * m + 1))
        = raw_sum buf off len + htons v := by
  induction m with
  | zero =>
    intro off len hlen hin
    obtain ⟨n, rfl⟩ : ∃ n, len = n + 2 := ⟨len - 2, by omega⟩
    simp only [raw_sum, Nat.mul_zero, Nat.add_zero]
    have htail : raw_sum (st16 buf off v) (off + 2) n = raw_sum buf (off + 2) n := by
      apply raw_sum_congr
      intro i h1 h2
      rw [rd_st16]
      rw [if_neg (by omega), if_neg (by omega)]
    rw [htail, rd_st16, rd_st16]
    rw [if_neg (by omega), if_pos (by omega), if_pos (by omega)]
    unfold htons
    omega
  | succ m ih =>
    intro off len hlen hin
    obtain ⟨n, rfl⟩ : ∃ n, len = n + 2 := ⟨len - 2, by omega⟩
    have e : off + 2 * (m + 1) = (off + 2) + 2 * m := by omega
    simp only [raw_sum]
    have := ih (off + 2) n (by omega) (by omega)
    rw [e]
    rw [rd_st16, rd_st16]
    rw [if_neg (by omega), if_neg (by omega), if_neg (by omega), if_neg (by omega)]
    omega

/-- Storing the checksum of a block into its (zeroed, 16-bit aligned) checksum
field makes the block verify. -/
theorem cksum_st16_valid (buf : List Nat) (hb : bytes_ok buf) (off len m : Nat)
    (hlen : 2 * m + 2 ≤ len) (hin : off + 2 * m + 1 < buf.length)
    (h0 : rd buf (off + 2 * m) = 0) (h1 : rd buf (off + 2 * m + 1) = 0) :
    cksum (st16 buf (off + 2 * m) (cksum buf off len)) off len = 0 := by
  have hraw := raw_sum_st16 buf (cksum buf off len) m off len hlen hin
  rw [h0, h1] at hraw
  have hc : htons (cksum buf off len) = 0xffff - oc_norm (raw_sum buf off len) := by
    unfold cksum
    rw [htons_htons _ (by omega), oc_sum_eq_norm buf hb]
  rw [hc] at hraw
  have hs : oc_sum (st16 buf (off + 2 * m) (cksum buf off len)) off len = 0xffff := by
    rw [oc_sum_eq_norm _ (bytes_ok_st16 _ hb _ _)]
    have : raw_sum (st16 buf (off + 2 * m) (cksum buf off len)) off len
        = raw_sum buf off len + (0xffff - oc_norm (raw_sum buf off len)) := by omega
    rw [this, oc_norm_complement]
  show htons (0xffff - oc_sum (st16 buf (off + 2 * m) (cksum buf off len)) off len) = 0
  rw [hs]
  decide

/-! ### Longest prefix match -/

theorem lpm_loop_sound (dest_addr : Nat) (rt : List sr_rt) (longest : Option sr_rt) (len : Nat)
    (r : sr_rt) (h : lpm_loop dest_addr rt longest len = some r) :
    longest = some r ∨ (r ∈ rt ∧ rt_matches r dest_addr) := by
  induction rt generalizing longest len with
  | nil => left; simpa [lpm_loop] using h
  | cons w next ih =>
    unfold lpm_loop at h
    split_ifs at h with hm hg
    · rcases ih _ _ h with h1 | ⟨h1, h2⟩
      · right
        refine ⟨?_, ?_⟩
        · simp only [Option.some.injEq] at h1; simp [h1]
        · simp only [Option.some.injEq] at h1; subst h1; exact hm
      · right; exact ⟨List.mem_cons_of_mem _ h1, h2⟩
    · rcases ih _ _ h with h1 | ⟨h1, h2⟩
      · left; exact h1
      · right; exact ⟨List.mem_cons_of_mem _ h1, h2⟩
    · rcases ih _ _ h with h1 | ⟨h1, h2⟩
      · left; exact h1
      · right; exact ⟨List.mem_cons_of_mem _ h1, h2⟩

/-- C3: for a non-zero destination, a route returned by `longest_prefix_match`
is an entry of the routing table and matches the destination,
`(r.dest & r.mask) == (dest & r.mask)`. -/
theorem longest_prefix_match_sound (sr : sr_instance) (dest_addr : Nat) (r : sr_rt)
    (hd : dest_addr ≠ 0) (h : longest_prefix_match sr dest_addr = some (some r)) :
    r ∈ sr.routing_table ∧ (r.dest &&& r.mask) = (dest_addr &&& r.mask) := by
  unfold longest_prefix_match at h
  rw [if_neg hd] at h
  simp only [Option.some.injEq] at h
  rcases lpm_loop_sound _ _ _ _ _ h with h1 | h1
  · simp at h1
  · exact h1

/-- C3 at the route 20.0.0.0/8 and the destination 20.1.2.3. -/
theorem longest_prefix_match_sound_witness :
    ipv4 20 1 2 3 ≠ 0 ∧ longest_prefix_match demo_sr (ipv4 20 1 2 3) = some (some demo_rt) ∧
      (demo_rt ∈ demo_sr.routing_table ∧
        (demo_rt.dest &&& demo_rt.mask) = (ipv4 20 1 2 3 &&& demo_rt.mask)) :=
  ⟨by decide, by decide,
    longest_prefix_match_sound demo_sr (ipv4 20 1 2 3) demo_rt (by decide) (by decide)⟩

/-- C1 (the code departs from it): the table lists 10.0.0.0/8 and then
10.0.0.0/16, both match the destination 10.0.2.3, and `longest_prefix_match`
returns the /8 entry although the matching /16 entry has the greater mask:
`mask & dest` is 10.0.0.0 for both, so the second never beats the first. -/
theorem longest_prefix_match_keeps_shorter_prefix :
    longest_prefix_match nested_sr (ipv4 10 0 2 3) = some (some rt_slash8) ∧
      rt_slash16 ∈ nested_sr.routing_table ∧
      (rt_slash16.dest &&& rt_slash16.mask) = (ipv4 10 0 2 3 &&& rt_slash16.mask) ∧
      rt_slash8.mask < rt_slash16.mask := by
  decide

/-- C2 (the code departs from it): the table holds the default route 0.0.0.0/0,
which matches the destination 8.8.8.8, and `longest_prefix_match` returns no
route: `mask & dest` is 0 and never exceeds the initial `len = 0`. -/
theorem longest_prefix_match_misses_default_route :
    longest_prefix_match default_sr (ipv4 8 8 8 8) = some none ∧
      rt_default ∈ default_sr.routing_table ∧
      (rt_default.dest &&& rt_default.mask) = (ipv4 8 8 8 8 &&& rt_default.mask) := by
  decide


/-! ### Header fields -/

theorem ld16_lt (buf : List Nat) (hb : bytes_ok buf) (o : Nat) : ld16 buf o < 2 ^ 16 := by
  have h0 := rd_lt_256 buf hb o
  have h1 := rd_lt_256 buf hb (o + 1)
  unfold ld16; omega

theorem ld32_lt (buf : List Nat) (hb : bytes_ok buf) (o : Nat) : ld32 buf o < 2 ^ 32 := by
  have h0 := rd_lt_256 buf hb o
  have h1 := rd_lt_256 buf hb (o + 1)
  have h2 := rd_lt_256 buf hb (o + 2)
  have h3 := rd_lt_256 buf hb (o + 3)
  unfold ld32; omega

theorem ld32_of_rd (f : List Nat) (o v : Nat) (hv : v < 2 ^ 32)
    (h0 : rd f o = v % 256) (h1 : rd f (o + 1) = v / 2 ^ 8 % 256)
    (h2 : rd f (o + 2) = v / 2 ^ 16 % 256) (h3 : rd f (o + 3) = v / 2 ^ 24 % 256) :
    ld32 f o = v := by
  unfold ld32; rw [h0, h1, h2, h3]; omega

theorem ld32_congr (a b : List Nat) (o : Nat)
    (h : ∀ i, o ≤ i → i < o + 4 → rd a i = rd b i) : ld32 a o = ld32 b o := by
  unfold ld32
  rw [h o (by omega) (by omega), h (o + 1) (by omega) (by omega),
    h (o + 2) (by omega) (by omega), h (o + 3) (by omega) (by omega)]

theorem ld16_congr (a b : List Nat) (o : Nat)
    (h : ∀ i, o ≤ i → i < o + 2 → rd a i = rd b i) : ld16 a o = ld16 b o := by
  unfold ld16
  rw [h o (by omega) (by omega), h (o + 1) (by omega) (by omega)]

theorem st16_ld16_self (buf : List Nat) (hb : bytes_ok buf) (o x : Nat) :
    st16 (st16 buf o x) o (ld16 buf o) = buf := by
  apply ext_rd
  · simp
  · intro i _
    have h0 := rd_lt_256 buf hb o
    have h1 := rd_lt_256 buf hb (o + 1)
    rw [rd_st16, rd_st16]
    simp only [length_st16]
    unfold ld16
    split_ifs with c1 c2
    all_goals first | (rcases c1 with ⟨rfl, _⟩; omega) | (rcases c2 with ⟨rfl, _⟩; omega) | omega

/-! ### Packet checks -/

theorem check_ip_packet_true (pkt : List Nat) (len : Nat) (hb : bytes_ok pkt)
    (h : (check_ip_packet pkt len).1 = true) :
    34 ≤ len ∧ (check_ip_packet pkt len).2 = pkt := by
  unfold check_ip_packet at h ⊢
  simp only [sizeof_sr_ethernet_hdr_t, sizeof_sr_ip_hdr_t] at h ⊢
  by_cases h1 : len < 14 + 20
  · rw [if_pos h1] at h; simp at h
  · rw [if_neg h1] at h ⊢
    by_cases h2 : ld16 pkt 24 ≠ cksum (st16 pkt 24 0) 14 20
    · rw [if_pos h2] at h; simp at h
    · rw [if_neg h2]
      exact ⟨by omega, st16_ld16_self pkt hb 24 0⟩

theorem check_icmp_packet_buf (pkt : List Nat) (len : Nat) (hb : bytes_ok pkt) :
    (check_icmp_packet pkt len).2 = pkt := by
  unfold check_icmp_packet
  by_cases h1 : len < sizeof_sr_icmp_hdr_t
  · rw [if_pos h1]
  · rw [if_neg h1]
    dsimp only
    split_ifs
    · exact st16_ld16_self pkt hb 36 0
    · exact st16_ld16_self pkt hb 36 0

/-! ### The frame of `send_icmp3_error` -/

theorem icmp3_frame_length (type code : Nat) (in_if : sr_if) (orig : List Nat) :
    (icmp3_frame type code in_if orig).length = 70 := by
  simp [icmp3_frame, sizeof_sr_ethernet_hdr_t, sizeof_sr_icmp_t3_hdr_t, sizeof_sr_ip_hdr_t]

theorem icmp3_frame_type (type code : Nat) (in_if : sr_if) (orig : List Nat) :
    rd (icmp3_frame type code in_if orig) 34 = type % 256 := by
  simp [icmp3_frame, rd_st16, rd_wr, rd_memcpy, rd_memset, rd_malloc, rd_st32,
    sizeof_sr_ethernet_hdr_t, sizeof_sr_icmp_t3_hdr_t, sizeof_sr_ip_hdr_t, ICMP_DATA_SIZE,
    ETHER_ADDR_LEN]

theorem icmp3_frame_code (type code : Nat) (in_if : sr_if) (orig : List Nat) :
    rd (icmp3_frame type code in_if orig) 35 = code % 256 := by
  simp [icmp3_frame, rd_st16, rd_wr, rd_memcpy, rd_memset, rd_malloc, rd_st32,
    sizeof_sr_ethernet_hdr_t, sizeof_sr_icmp_t3_hdr_t, sizeof_sr_ip_hdr_t, ICMP_DATA_SIZE,
    ETHER_ADDR_LEN]

theorem icmp3_frame_proto (type code : Nat) (in_if : sr_if) (orig : List Nat) :
    rd (icmp3_frame type code in_if orig) 23 = 1 := by
  simp [icmp3_frame, rd_st16, rd_wr, rd_memcpy, rd_memset, rd_malloc, rd_st32,
    sizeof_sr_ethernet_hdr_t, sizeof_sr_icmp_t3_hdr_t, sizeof_sr_ip_hdr_t, ICMP_DATA_SIZE,
    ETHER_ADDR_LEN, ip_protocol_icmp]

theorem icmp3_frame_ethertype (type code : Nat) (in_if : sr_if) (orig : List Nat) :
    ethertype (icmp3_frame type code in_if orig) = ethertype_ip := by
  simp [ethertype, ntohs, ld16, icmp3_frame, rd_st16, rd_wr, rd_memcpy, rd_memset, rd_malloc, rd_st32,
    sizeof_sr_ethernet_hdr_t, sizeof_sr_icmp_t3_hdr_t, sizeof_sr_ip_hdr_t, ICMP_DATA_SIZE,
    ETHER_ADDR_LEN, ethertype_ip, htons]

theorem icmp3_frame_dst (type code : Nat) (in_if : sr_if) (orig : List Nat)
    (hb : bytes_ok orig) :
    ld32 (icmp3_frame type code in_if orig) 30 = ld32 orig 26 := by
  apply ld32_of_rd _ _ _ (ld32_lt orig hb 26) <;>
  simp [icmp3_frame, rd_st16, rd_wr, rd_memcpy, rd_memset, rd_malloc, rd_st32,
    sizeof_sr_ethernet_hdr_t, sizeof_sr_icmp_t3_hdr_t, sizeof_sr_ip_hdr_t, ICMP_DATA_SIZE,
    ETHER_ADDR_LEN]

theorem icmp3_frame_src (type code : Nat) (in_if : sr_if) (orig : List Nat)
    (hb : bytes_ok orig) (hip : in_if.ip < 2 ^ 32) :
    ld32 (icmp3_frame type code in_if orig) 26 = if code = 3 then ld32 orig 30 else in_if.ip := by
  have hv : (if code = 3 then ld32 orig 30 else in_if.ip) < 2 ^ 32 := by
    split_ifs
    · exact ld32_lt orig hb 30
    · exact hip
  apply ld32_of_rd _ _ _ hv <;>
  simp [icmp3_frame, rd_st16, rd_wr, rd_memcpy, rd_memset, rd_malloc, rd_st32,
    sizeof_sr_ethernet_hdr_t, sizeof_sr_icmp_t3_hdr_t, sizeof_sr_ip_hdr_t, ICMP_DATA_SIZE,
    ETHER_ADDR_LEN]

/-- What `send_icmp3_error` does once the inbound interface is found: one
action, a send or a queue of a 70-byte frame on the inbound interface, equal to
`icmp3_frame` from byte 6 on. -/
theorem send_icmp3_error_spec (type code : Nat) (sr : sr_instance) (orig : List Nat)
    (interface : String) (in_if : sr_if) (hin : sr_get_interface sr interface = some in_if) :
    ∃ a, send_icmp3_error type code sr orig interface = some [a] ∧ a.is_emit = true ∧
      a.len = 70 ∧ a.iface = in_if.name ∧ a.frame.length = 70 ∧
      ∀ j, 6 ≤ j → rd a.frame j = rd (icmp3_frame type code in_if orig) j := by
  unfold send_icmp3_error
  rw [hin]
  dsimp only
  have hlen := icmp3_frame_length type code in_if orig
  generalize icmp3_frame type code in_if orig = f at hlen ⊢
  cases hlk : sr_arpcache_lookup sr (ld32 f 30) with
  | none =>
    exact ⟨_, rfl, rfl, rfl, rfl, hlen, fun j _ => rfl⟩
  | some entry =>
    refine ⟨_, rfl, rfl, rfl, rfl, ?_, ?_⟩
    · simp [Action.frame, hlen]
    · intro j hj
      simp only [Action.frame, rd_memcpy, ETHER_ADDR_LEN]
      rw [if_neg (by omega)]

/-! ### Dispatch -/

theorem handlepacket_ip (sr : sr_instance) (pkt : List Nat) (len : Nat) (interface : String)
    (hty : ethertype pkt = ethertype_ip) (h14 : 14 ≤ len) :
    sr_handlepacket sr pkt len interface = handle_ip sr pkt len interface := by
  unfold sr_handlepacket
  have h1 : check_eth_packet pkt len = true := by
    unfold check_eth_packet sizeof_sr_ethernet_hdr_t
    rw [if_neg (by omega)]
  rw [h1, hty]
  simp [ethertype_ip, ethertype_arp]

theorem handle_ip_local_tcp_udp (sr : sr_instance) (pkt : List Nat) (len : Nat)
    (interface : String) (local_if : sr_if) (hb : bytes_ok pkt)
    (hv : (check_ip_packet pkt len).1 = true)
    (hloc : sr_get_interface_by_IP sr (ld32 pkt 30) = some local_if)
    (hp : rd pkt 23 = 6 ∨ rd pkt 23 = 17) :
    handle_ip sr pkt len interface =
      match send_icmp3_error 3 3 sr pkt interface with
      | none => none
      | some acts => some (pkt, acts) := by
  obtain ⟨_, hbuf⟩ := check_ip_packet_true pkt len hb hv
  unfold handle_ip
  simp only [hv, hbuf, hloc]
  have h1 : ¬ rd pkt 23 = 1 := by omega
  simp [h1, hp]

/-- C9: a valid IPv4 frame addressed to a local interface with protocol 6 (TCP)
or 17 (UDP) makes `sr_handlepacket` perform exactly one action, the send or
queue of one frame: an ICMP message (protocol 1) of type 3, code 3, whose IP
destination is the packet's IP source and whose IP source is the packet's IP
destination. -/
theorem handlepacket_port_unreachable (sr : sr_instance) (pkt : List Nat) (len : Nat)
    (interface : String) (in_if local_if : sr_if) (hb : bytes_ok pkt)
    (hty : ethertype pkt = ethertype_ip)
    (hv : (check_ip_packet pkt len).1 = true)
    (hloc : sr_get_interface_by_IP sr (ld32 pkt 30) = some local_if)
    (hp : rd pkt 23 = 6 ∨ rd pkt 23 = 17)
    (hin : sr_get_interface sr interface = some in_if) :
    ∃ a, sr_handlepacket sr pkt len interface = some (pkt, [a]) ∧ a.is_emit = true ∧
      ethertype a.frame = ethertype_ip ∧ rd a.frame 23 = 1 ∧
      rd a.frame 34 = 3 ∧ rd a.frame 35 = 3 ∧
      ld32 a.frame 30 = ld32 pkt 26 ∧ ld32 a.frame 26 = ld32 pkt 30 := by
  obtain ⟨h34, _⟩ := check_ip_packet_true pkt len hb hv
  obtain ⟨a, ha, hemit, _, _, _, hrd⟩ := send_icmp3_error_spec 3 3 sr pkt interface in_if hin
  refine ⟨a, ?_, hemit, ?_, ?_, ?_, ?_, ?_, ?_⟩
  · rw [handlepacket_ip sr pkt len interface hty (by omega),
      handle_ip_local_tcp_udp sr pkt len interface local_if hb hv hloc hp, ha]
  · have := icmp3_frame_ethertype 3 3 in_if pkt
    unfold ethertype at this ⊢
    rw [ld16_congr a.frame (icmp3_frame 3 3 in_if pkt) 12 (fun i h1 _ => hrd i (by omega))]
    exact this
  · rw [hrd 23 (by omega)]; exact icmp3_frame_proto 3 3 in_if pkt
  · rw [hrd 34 (by omega)]; exact icmp3_frame_type 3 3 in_if pkt
  · rw [hrd 35 (by omega)]; exact icmp3_frame_code 3 3 in_if pkt
  · rw [ld32_congr a.frame (icmp3_frame 3 3 in_if pkt) 30 (fun i h1 _ => hrd i (by omega))]
    exact icmp3_frame_dst 3 3 in_if pkt hb
  · rw [ld32_congr a.frame (icmp3_frame 3 3 in_if pkt) 26 (fun i h1 _ => hrd i (by omega))]
    apply ld32_of_rd _ _ _ (ld32_lt pkt hb 30) <;>
    simp [icmp3_frame, rd_st16, rd_wr, rd_memcpy, rd_memset, rd_malloc, rd_st32,
      sizeof_sr_ethernet_hdr_t, sizeof_sr_icmp_t3_hdr_t, sizeof_sr_ip_hdr_t, ICMP_DATA_SIZE,
      ETHER_ADDR_LEN]

/-- C9 at the UDP datagram from 10.0.1.9 to the router's own 10.0.1.1, port 53. -/
theorem handlepacket_port_unreachable_witness :
    (bytes_ok frame_udp ∧ ethertype frame_udp = ethertype_ip ∧
      (check_ip_packet frame_udp 42).1 = true ∧
      sr_get_interface_by_IP demo_sr (ld32 frame_udp 30) = some demo_eth1 ∧
      (rd frame_udp 23 = 6 ∨ rd frame_udp 23 = 17) ∧
      sr_get_interface demo_sr "eth1" = some demo_eth1) ∧
    ∃ a, sr_handlepacket demo_sr frame_udp 42 "eth1" = some (frame_udp, [a]) ∧
      a.is_emit = true ∧ ethertype a.frame = ethertype_ip ∧ rd a.frame 23 = 1 ∧
      rd a.frame 34 = 3 ∧ rd a.frame 35 = 3 ∧
      ld32 a.frame 30 = ld32 frame_udp 26 ∧ ld32 a.frame 26 = ld32 frame_udp 30 :=
  ⟨by decide,
    handlepacket_port_unreachable demo_sr frame_udp 42 "eth1" demo_eth1 demo_eth1
      (by decide) (by decide) (by decide) (by decide) (by decide) (by decide)⟩

/-! ### Forwarding -/

theorem lpm_loop_no_match (dest_addr : Nat) (rt : List sr_rt) (longest : Option sr_rt) (len : Nat)
    (h : ∀ e ∈ rt, ¬ (e.dest &&& e.mask) = (dest_addr &&& e.mask)) :
    lpm_loop dest_addr rt longest len = longest := by
  induction rt generalizing longest len with
  | nil => rfl
  | cons w next ih =>
    unfold lpm_loop
    rw [if_neg (h w (List.mem_cons_self _ _))]
    exact ih _ _ (fun e he => h e (List.mem_cons_of_mem _ he))

theorem length_fwd_buf (pkt : List Nat) : (fwd_buf pkt).length = pkt.length := by
  simp [fwd_buf]

theorem rd_fwd_buf (pkt : List Nat) (j : Nat) (h22 : j ≠ 22) (h24 : j ≠ 24) (h25 : j ≠ 25) :
    rd (fwd_buf pkt) j = rd pkt j := by
  simp only [fwd_buf, rd_st16, rd_wr]
  rw [if_neg (by omega), if_neg (by omega), if_neg (by omega), if_neg (by omega),
    if_neg (by omega)]

theorem rd_fwd_buf_ttl (pkt : List Nat) (hl : 22 < pkt.length) :
    rd (fwd_buf pkt) 22 = (rd pkt 22 + 255) % 256 := by
  simp [fwd_buf, rd_st16, rd_wr, hl]

theorem forward_ip_ttl_gt_one (sr : sr_instance) (pkt : List Nat) (len : Nat)
    (interface : String) (hb : bytes_ok pkt) (hl : pkt.length = len)
    (hv : (check_ip_packet pkt len).1 = true) (ht : 1 < rd pkt 22) :
    forward_ip sr pkt len interface =
      match longest_prefix_match sr (ld32 (fwd_buf pkt) 30) with
      | none => none
      | some (some my_int) =>
        match sr_get_interface sr my_int.interface with
        | none => none
        | some my_if =>
          match sr_arpcache_lookup sr
              (ld32 (memcpy (fwd_buf pkt) 6 my_if.addr 0 ETHER_ADDR_LEN) 30) with
          | some arp_entry =>
            some (memcpy (memcpy (fwd_buf pkt) 6 my_if.addr 0 ETHER_ADDR_LEN) 0
                    arp_entry.mac 0 ETHER_ADDR_LEN,
              [Action.send (memcpy (memcpy (fwd_buf pkt) 6 my_if.addr 0 ETHER_ADDR_LEN) 0
                    arp_entry.mac 0 ETHER_ADDR_LEN) len my_if.name])
          | none =>
            some (memcpy (fwd_buf pkt) 6 my_if.addr 0 ETHER_ADDR_LEN,
              [Action.queue (ld32 (memcpy (fwd_buf pkt) 6 my_if.addr 0 ETHER_ADDR_LEN) 30)
                (memcpy (fwd_buf pkt) 6 my_if.addr 0 ETHER_ADDR_LEN) len my_if.name])
      | some none =>
        match send_icmp3_error 3 0 sr (fwd_buf pkt) interface with
        | none => none
        | some acts2 => some (fwd_buf pkt, acts2) := by
  obtain ⟨h34, hbuf⟩ := check_ip_packet_true pkt len hb hv
  have h256 := rd_lt_256 pkt hb 22
  have httl : ¬ rd (wr pkt 22 (rd pkt 22 + 255)) 22 = 0 := by
    rw [rd_wr, if_pos ⟨rfl, by omega⟩]; omega
  unfold forward_ip
  simp only [hv, hbuf, httl, if_false, Bool.true_eq_false, List.nil_append]
  rfl

theorem bytes_ok_fwd_buf (pkt : List Nat) (hb : bytes_ok pkt) : bytes_ok (fwd_buf pkt) :=
  bytes_ok_st16 _ (bytes_ok_st16 _ (bytes_ok_wr _ hb _ _) _ _) _ _

theorem cksum_fwd_buf (pkt : List Nat) (hb : bytes_ok pkt) (hl : 34 ≤ pkt.length) :
    cksum (fwd_buf pkt) 14 20 = 0 := by
  have hb1 : bytes_ok (st16 (wr pkt 22 (rd pkt 22 + 255)) 24 0) :=
    bytes_ok_st16 _ (bytes_ok_wr _ hb _ _) _ _
  have h0 : rd (st16 (wr pkt 22 (rd pkt 22 + 255)) 24 0) (14 + 2 * 5) = 0 := by
    simp [rd_st16, rd_wr]; omega
  have h1 : rd (st16 (wr pkt 22 (rd pkt 22 + 255)) 24 0) (14 + 2 * 5 + 1) = 0 := by
    simp [rd_st16, rd_wr]; omega
  exact cksum_st16_valid _ hb1 14 20 5 (by omega) (by simp; omega) h0 h1

theorem handle_ip_not_local (sr : sr_instance) (pkt : List Nat) (len : Nat)
    (interface : String) (hb : bytes_ok pkt)
    (hv : (check_ip_packet pkt len).1 = true)
    (hnl : sr_get_interface_by_IP sr (ld32 pkt 30) = none) :
    handle_ip sr pkt len interface = forward_ip sr pkt len interface := by
  obtain ⟨_, hbuf⟩ := check_ip_packet_true pkt len hb hv
  unfold handle_ip
  simp only [hv, hbuf, hnl]
  rfl

/-- Network Unreachable for a non-zero destination: a valid IPv4 frame with a
non-zero destination that is not locally destined, arrives with TTL above 1 and
matches no routing-table entry makes `sr_handlepacket` perform exactly one action, the send or queue of one
70-byte frame on the inbound interface: an ICMP message (protocol 1) of type 3,
code 0, with IP destination = the packet's IP source and IP source = the
inbound interface's IPv4.  The received packet itself is neither sent nor queued. -/
theorem handlepacket_net_unreachable (sr : sr_instance) (pkt : List Nat) (len : Nat)
    (interface : String) (in_if : sr_if) (hb : bytes_ok pkt) (hl : pkt.length = len)
    (hty : ethertype pkt = ethertype_ip)
    (hv : (check_ip_packet pkt len).1 = true)
    (hnl : sr_get_interface_by_IP sr (ld32 pkt 30) = none)
    (ht : 1 < rd pkt 22)
    (hd : ld32 pkt 30 ≠ 0)
    (hnm : ∀ e ∈ sr.routing_table, ¬ (e.dest &&& e.mask) = (ld32 pkt 30 &&& e.mask))
    (hin : sr_get_interface sr interface = some in_if) (hip : in_if.ip < 2 ^ 32) :
    ∃ buf a, sr_handlepacket sr pkt len interface = some (buf, [a]) ∧ a.is_emit = true ∧
      a.len = 70 ∧ a.frame.length = 70 ∧ a.iface = in_if.name ∧
      ethertype a.frame = ethertype_ip ∧ rd a.frame 23 = 1 ∧
      rd a.frame 34 = 3 ∧ rd a.frame 35 = 0 ∧
      ld32 a.frame 30 = ld32 pkt 26 ∧ ld32 a.frame 26 = in_if.ip := by
  obtain ⟨h34, _⟩ := check_ip_packet_true pkt len hb hv
  obtain ⟨a, ha, hemit, hlen, hif, hfl, hrd⟩ :=
    send_icmp3_error_spec 3 0 sr (fwd_buf pkt) interface in_if hin
  have hdst : ld32 (fwd_buf pkt) 30 = ld32 pkt 30 :=
    ld32_congr _ _ 30 (fun i h1 h2 => rd_fwd_buf pkt i (by omega) (by omega) (by omega))
  have hsrc : ld32 (fwd_buf pkt) 26 = ld32 pkt 26 :=
    ld32_congr _ _ 26 (fun i h1 h2 => rd_fwd_buf pkt i (by omega) (by omega) (by omega))
  refine ⟨fwd_buf pkt, a, ?_, hemit, hlen, hfl, hif, ?_, ?_, ?_, ?_, ?_, ?_⟩
  · rw [handlepacket_ip sr pkt len interface hty (by omega),
      handle_ip_not_local sr pkt len interface hb hv hnl,
      forward_ip_ttl_gt_one sr pkt len interface hb hl hv ht, hdst]
    unfold longest_prefix_match
    rw [if_neg hd, lpm_loop_no_match _ _ _ _ hnm]
    simp only [ha]
  · have := icmp3_frame_ethertype 3 0 in_if (fwd_buf pkt)
    unfold ethertype at this ⊢
    rw [ld16_congr a.frame (icmp3_frame 3 0 in_if (fwd_buf pkt)) 12
      (fun i h1 _ => hrd i (by omega))]
    exact this
  · rw [hrd 23 (by omega)]; exact icmp3_frame_proto 3 0 in_if _
  · rw [hrd 34 (by omega)]; exact icmp3_frame_type 3 0 in_if _
  · rw [hrd 35 (by omega)]; exact icmp3_frame_code 3 0 in_if _
  · rw [ld32_congr a.frame (icmp3_frame 3 0 in_if (fwd_buf pkt)) 30
      (fun i h1 _ => hrd i (by omega)),
      icmp3_frame_dst 3 0 in_if _ (bytes_ok_fwd_buf pkt hb), hsrc]
  · rw [ld32_congr a.frame (icmp3_frame 3 0 in_if (fwd_buf pkt)) 26
      (fun i h1 _ => hrd i (by omega)),
      icmp3_frame_src 3 0 in_if _ (bytes_ok_fwd_buf pkt hb) hip]
    simp

/-- The Network Unreachable path at the datagram to 30.0.0.1, for which the router
has no route. -/
theorem handlepacket_net_unreachable_witness :
    (bytes_ok frame_noroute ∧ frame_noroute.length = 42 ∧
      ethertype frame_noroute = ethertype_ip ∧ (check_ip_packet frame_noroute 42).1 = true ∧
      sr_get_interface_by_IP demo_sr (ld32 frame_noroute 30) = none ∧
      1 < rd frame_noroute 22 ∧ ld32 frame_noroute 30 ≠ 0 ∧
      (∀ e ∈ demo_sr.routing_table,
        ¬ (e.dest &&& e.mask) = (ld32 frame_noroute 30 &&& e.mask)) ∧
      sr_get_interface demo_sr "eth1" = some demo_eth1 ∧ demo_eth1.ip < 2 ^ 32) ∧
    ∃ buf a, sr_handlepacket demo_sr frame_noroute 42 "eth1" = some (buf, [a]) ∧
      a.is_emit = true ∧ a.len = 70 ∧ a.frame.length = 70 ∧ a.iface = demo_eth1.name ∧
      ethertype a.frame = ethertype_ip ∧ rd a.frame 23 = 1 ∧
      rd a.frame 34 = 3 ∧ rd a.frame 35 = 0 ∧
      ld32 a.frame 30 = ld32 frame_noroute 26 ∧ ld32 a.frame 26 = demo_eth1.ip :=
  ⟨by decide,
    handlepacket_net_unreachable demo_sr frame_noroute 42 "eth1" demo_eth1
      (by decide) (by decide) (by decide) (by decide) (by decide) (by decide) (by decide)
      (by decide) (by decide) (by decide)⟩

/-- C10 (the code departs from it): the valid datagram to 0.0.0.0 is not locally
destined, has TTL 64 and matches no route, and instead of answering with a
Network Unreachable message `sr_handlepacket` aborts on `assert(dest_addr)`
inside `longest_prefix_match`, which `forward_ip` calls on the destination
unchecked. -/
theorem handlepacket_zero_destination_aborts :
    (check_ip_packet frame_zero_dst 42).1 = true ∧
      ethertype frame_zero_dst = ethertype_ip ∧
      sr_get_interface_by_IP demo_sr (ld32 frame_zero_dst 30) = none ∧
      1 < rd frame_zero_dst 22 ∧
      (∀ e ∈ demo_sr.routing_table,
        ¬ (e.dest &&& e.mask) = (ld32 frame_zero_dst 30 &&& e.mask)) ∧
      sr_get_interface demo_sr "eth1" = some demo_eth1 ∧
      sr_handlepacket demo_sr frame_zero_dst 42 "eth1" = none := by
  decide

/-- C6: when `forward_ip` forwards a valid frame (TTL `T > 1` on arrival, a route
is found and its interface exists), it performs exactly one action, the send
or queue of one frame of the inbound length on the route's interface; that
frame has TTL `T - 1`, an IP header whose checksum verifies over its 20 bytes,
and every byte from offset 14 on other than the TTL (22) and the checksum
(24, 25) equal to the inbound byte. -/
theorem forward_ip_decrements_ttl (sr : sr_instance) (pkt : List Nat) (len : Nat)
    (interface : String) (my_int : sr_rt) (my_if : sr_if) (T : Nat)
    (hb : bytes_ok pkt) (hl : pkt.length = len)
    (hv : (check_ip_packet pkt len).1 = true)
    (hT : rd pkt 22 = T) (ht : 1 < T)
    (hr : longest_prefix_match sr (ld32 pkt 30) = some (some my_int))
    (hif : sr_get_interface sr my_int.interface = some my_if) :
    ∃ buf a, forward_ip sr pkt len interface = some (buf, [a]) ∧ a.is_emit = true ∧
      a.len = len ∧ a.frame.length = len ∧ a.iface = my_if.name ∧
      rd a.frame 22 = T - 1 ∧ cksum a.frame 14 20 = 0 ∧
      ∀ j, 14 ≤ j → j ≠ 22 → j ≠ 24 → j ≠ 25 → rd a.frame j = rd pkt j := by
  obtain ⟨h34, _⟩ := check_ip_packet_true pkt len hb hv
  have h256 := rd_lt_256 pkt hb 22
  have hdst : ld32 (fwd_buf pkt) 30 = ld32 pkt 30 :=
    ld32_congr _ _ 30 (fun i h1 h2 => rd_fwd_buf pkt i (by omega) (by omega) (by omega))
  have hfwd := forward_ip_ttl_gt_one sr pkt len interface hb hl hv (by omega)
  rw [hdst, hr] at hfwd
  simp only [hif] at hfwd
  have key : ∀ f : List Nat, f.length = len →
      (∀ j, 14 ≤ j → rd f j = rd (fwd_buf pkt) j) →
      rd f 22 = T - 1 ∧ cksum f 14 20 = 0 ∧
      ∀ j, 14 ≤ j → j ≠ 22 → j ≠ 24 → j ≠ 25 → rd f j = rd pkt j := by
    intro f _ hf
    refine ⟨?_, ?_, ?_⟩
    · rw [hf 22 (by omega), rd_fwd_buf_ttl pkt (by omega)]; omega
    · rw [cksum_congr f (fwd_buf pkt) 14 20 (fun i h1 _ => hf i h1)]
      exact cksum_fwd_buf pkt hb (by omega)
    · intro j h14 h22 h24 h25
      rw [hf j h14, rd_fwd_buf pkt j h22 h24 h25]
  cases hlk : sr_arpcache_lookup sr
      (ld32 (memcpy (fwd_buf pkt) 6 my_if.addr 0 ETHER_ADDR_LEN) 30) with
  | none =>
    rw [hlk] at hfwd
    have hk := key (memcpy (fwd_buf pkt) 6 my_if.addr 0 ETHER_ADDR_LEN)
      (by simp [length_fwd_buf, hl])
      (fun j hj => by rw [rd_memcpy, if_neg (by unfold ETHER_ADDR_LEN; omega)])
    exact ⟨_, _, hfwd, rfl, rfl, by simp [Action.frame, length_fwd_buf, hl], rfl, hk⟩
  | some arp_entry =>
    rw [hlk] at hfwd
    have hk := key (memcpy (memcpy (fwd_buf pkt) 6 my_if.addr 0 ETHER_ADDR_LEN) 0
        arp_entry.mac 0 ETHER_ADDR_LEN)
      (by simp [length_fwd_buf, hl])
      (fun j hj => by
        rw [rd_memcpy, if_neg (by unfold ETHER_ADDR_LEN; omega), rd_memcpy,
          if_neg (by unfold ETHER_ADDR_LEN; omega)])
    exact ⟨_, _, hfwd, rfl, rfl, by simp [Action.frame, length_fwd_buf, hl], rfl, hk⟩

/-- C6 at the datagram to 20.1.2.3 arriving with TTL 10. -/
theorem forward_ip_decrements_ttl_witness :
    (bytes_ok frame_fwd ∧ frame_fwd.length = 42 ∧ (check_ip_packet frame_fwd 42).1 = true ∧
      rd frame_fwd 22 = 10 ∧ 1 < 10 ∧
      longest_prefix_match demo_sr (ld32 frame_fwd 30) = some (some demo_rt) ∧
      sr_get_interface demo_sr demo_rt.interface = some demo_eth2) ∧
    ∃ buf a, forward_ip demo_sr frame_fwd 42 "eth1" = some (buf, [a]) ∧ a.is_emit = true ∧
      a.len = 42 ∧ a.frame.length = 42 ∧ a.iface = demo_eth2.name ∧
      rd a.frame 22 = 10 - 1 ∧ cksum a.frame 14 20 = 0 ∧
      ∀ j, 14 ≤ j → j ≠ 22 → j ≠ 24 → j ≠ 25 → rd a.frame j = rd frame_fwd j :=
  ⟨by decide,
    forward_ip_decrements_ttl demo_sr frame_fwd 42 "eth1" demo_rt demo_eth2 10
      (by decide) (by decide) (by decide) (by decide) (by decide) (by decide) (by decide)⟩

/-! ### Echo reply -/

theorem length_echo_reply_frame (my_int : sr_if) (pkt : List Nat) :
    (echo_reply_frame my_int pkt).length = pkt.length := by
  simp [echo_reply_frame]

theorem bytes_ok_echo_reply_frame (my_int : sr_if) (pkt : List Nat) (hb : bytes_ok pkt) :
    bytes_ok (echo_reply_frame my_int pkt) := by
  unfold echo_reply_frame
  exact bytes_ok_st16 _ (bytes_ok_st16 _ (bytes_ok_wr _ (bytes_ok_wr _ (bytes_ok_st16 _
    (bytes_ok_st16 _ (bytes_ok_st32 _ (bytes_ok_st32 _ (bytes_ok_memset _
      (bytes_ok_memcpy _ hb _ _ _ _) _ _ _) _ _) _ _) _ _) _ _) _ _) _ _) _ _) _ _

theorem rd_echo_reply_frame_tail (my_int : sr_if) (pkt : List Nat) (j : Nat) (hj : 38 ≤ j) :
    rd (echo_reply_frame my_int pkt) j = rd pkt j := by
  simp only [echo_reply_frame, rd_st16, rd_wr, rd_st32, rd_memset, rd_memcpy, ETHER_ADDR_LEN]
  repeat rw [if_neg (by omega)]

theorem rd_echo_reply_frame_ip (my_int : sr_if) (pkt : List Nat) (j : Nat) (h1 : 12 ≤ j)
    (h2 : j < 24) : rd (echo_reply_frame my_int pkt) j = rd pkt j := by
  simp only [echo_reply_frame, rd_st16, rd_wr, rd_st32, rd_memset, rd_memcpy, ETHER_ADDR_LEN]
  repeat rw [if_neg (by omega)]

theorem rd_echo_reply_frame_type (my_int : sr_if) (pkt : List Nat) (hl : 38 ≤ pkt.length) :
    rd (echo_reply_frame my_int pkt) 34 = 0 ∧ rd (echo_reply_frame my_int pkt) 35 = 0 := by
  have h34 : 34 < pkt.length := by omega
  have h35 : 35 < pkt.length := by omega
  constructor <;>
  simp [echo_reply_frame, rd_st16, rd_wr, rd_st32, rd_memset, rd_memcpy, ETHER_ADDR_LEN, h34, h35]

theorem rd_echo_reply_frame_shost (my_int : sr_if) (pkt : List Nat) (hl : 38 ≤ pkt.length)
    (hmac : bytes_ok my_int.addr) (i : Nat) (hi : i < 6) :
    rd (echo_reply_frame my_int pkt) (6 + i) = rd my_int.addr i := by
  have hm := rd_lt_256 my_int.addr hmac i
  simp only [echo_reply_frame, rd_st16, rd_wr, rd_st32, rd_memset, rd_memcpy, ETHER_ADDR_LEN,
    length_memcpy, length_memset, length_st16, length_st32, length_wr]
  repeat rw [if_neg (by omega)]
  rw [if_pos (by omega)]
  have : 0 + (6 + i - 6) = i := by omega
  rw [this]
  omega

theorem ld32_echo_reply_frame (my_int : sr_if) (pkt : List Nat) (hb : bytes_ok pkt)
    (hl : 38 ≤ pkt.length) :
    ld32 (echo_reply_frame my_int pkt) 26 = ld32 pkt 30 ∧
      ld32 (echo_reply_frame my_int pkt) 30 = ld32 pkt 26 := by
  have e26 : ld32 (memset (memcpy pkt 6 my_int.addr 0 ETHER_ADDR_LEN) 0 0 ETHER_ADDR_LEN) 26
      = ld32 pkt 26 := by
    apply ld32_congr
    intro i h1 h2
    rw [rd_memset, rd_memcpy, if_neg (by unfold ETHER_ADDR_LEN; omega),
      if_neg (by unfold ETHER_ADDR_LEN; omega)]
  have e30 : ld32 (memset (memcpy pkt 6 my_int.addr 0 ETHER_ADDR_LEN) 0 0 ETHER_ADDR_LEN) 30
      = ld32 pkt 30 := by
    apply ld32_congr
    intro i h1 h2
    rw [rd_memset, rd_memcpy, if_neg (by unfold ETHER_ADDR_LEN; omega),
      if_neg (by unfold ETHER_ADDR_LEN; omega)]
  have h26 : 26 < pkt.length := by omega
  have h27 : 27 < pkt.length := by omega
  have h28 : 28 < pkt.length := by omega
  have h29 : 29 < pkt.length := by omega
  have h30 : 30 < pkt.length := by omega
  have h31 : 31 < pkt.length := by omega
  have h32 : 32 < pkt.length := by omega
  have h33 : 33 < pkt.length := by omega
  constructor
  · apply ld32_of_rd _ _ _ (ld32_lt pkt hb 30) <;>
    simp [echo_reply_frame, e26, e30, rd_st16, rd_wr, rd_st32, h26, h27, h28, h29]
  · apply ld32_of_rd _ _ _ (ld32_lt pkt hb 26) <;>
    simp [echo_reply_frame, e26, e30, rd_st16, rd_wr, rd_st32, h30, h31, h32, h33]

theorem echo_reply_frame_eq (my_int : sr_if) (pkt : List Nat) :
    echo_reply_frame my_int pkt =
      st16 (echo_reply_zeroed my_int pkt) 36
        (cksum (echo_reply_zeroed my_int pkt) 34
          (ntohs (ld16 (echo_reply_zeroed my_int pkt) 16) - sizeof_sr_ip_hdr_t)) := rfl

theorem bytes_ok_echo_reply_zeroed (my_int : sr_if) (pkt : List Nat) (hb : bytes_ok pkt) :
    bytes_ok (echo_reply_zeroed my_int pkt) := by
  unfold echo_reply_zeroed
  exact bytes_ok_st16 _ (bytes_ok_wr _ (bytes_ok_wr _ (bytes_ok_st16 _
    (bytes_ok_st16 _ (bytes_ok_st32 _ (bytes_ok_st32 _ (bytes_ok_memset _
      (bytes_ok_memcpy _ hb _ _ _ _) _ _ _) _ _) _ _) _ _) _ _) _ _) _ _) _ _

theorem length_echo_reply_zeroed (my_int : sr_if) (pkt : List Nat) :
    (echo_reply_zeroed my_int pkt).length = pkt.length := by
  simp [echo_reply_zeroed]

theorem ld16_echo_reply_zeroed_len (my_int : sr_if) (pkt : List Nat) :
    ld16 (echo_reply_zeroed my_int pkt) 16 = ld16 pkt 16 := by
  apply ld16_congr
  intro i h1 h2
  simp only [echo_reply_zeroed, rd_st16, rd_wr, rd_st32, rd_memset, rd_memcpy, ETHER_ADDR_LEN]
  repeat rw [if_neg (by omega)]

theorem rd_echo_reply_zeroed_sum (my_int : sr_if) (pkt : List Nat) (hl : 38 ≤ pkt.length) :
    rd (echo_reply_zeroed my_int pkt) 36 = 0 ∧ rd (echo_reply_zeroed my_int pkt) 37 = 0 := by
  have h36 : 36 < pkt.length := by omega
  have h37 : 37 < pkt.length := by omega
  constructor <;> simp [echo_reply_zeroed, rd_st16, h36, h37]

theorem cksum_echo_reply_icmp (my_int : sr_if) (pkt : List Nat) (hb : bytes_ok pkt)
    (hl : 38 ≤ pkt.length) (L : Nat) (hL : ntohs (ld16 pkt 16) = L) (h24 : 24 ≤ L) :
    cksum (echo_reply_frame my_int pkt) 34 (L - 20) = 0 := by
  obtain ⟨h0, h1⟩ := rd_echo_reply_zeroed_sum my_int pkt hl
  rw [echo_reply_frame_eq, ld16_echo_reply_zeroed_len, hL]
  exact cksum_st16_valid _ (bytes_ok_echo_reply_zeroed my_int pkt hb) 34 (L - 20) 1
    (by omega) (by rw [length_echo_reply_zeroed]; omega) h0 h1

theorem cksum_ip_stored (p : List Nat) (hb : bytes_ok p) (hl : 34 ≤ p.length)
    (h0 : rd p 24 = 0) (h1 : rd p 25 = 0) (f : List Nat)
    (hf : ∀ i, 14 ≤ i → i < 14 + 20 → rd f i = rd (st16 p 24 (cksum p 14 20)) i) :
    cksum f 14 20 = 0 := by
  rw [cksum_congr f _ 14 20 hf]
  exact cksum_st16_valid p hb 14 20 5 (by omega) (by omega) h0 h1

theorem cksum_echo_reply_ip (my_int : sr_if) (pkt : List Nat) (hb : bytes_ok pkt)
    (hl : 38 ≤ pkt.length) :
    cksum (echo_reply_frame my_int pkt) 14 20 = 0 := by
  have hb2 : bytes_ok (st16 (st32 (st32
      (memset (memcpy pkt 6 my_int.addr 0 ETHER_ADDR_LEN) 0 0 ETHER_ADDR_LEN) 30
      (ld32 (memset (memcpy pkt 6 my_int.addr 0 ETHER_ADDR_LEN) 0 0 ETHER_ADDR_LEN) 26)) 26
      (ld32 (memset (memcpy pkt 6 my_int.addr 0 ETHER_ADDR_LEN) 0 0 ETHER_ADDR_LEN) 30)) 24 0) :=
    bytes_ok_st16 _ (bytes_ok_st32 _ (bytes_ok_st32 _ (bytes_ok_memset _
      (bytes_ok_memcpy _ hb _ _ _ _) _ _ _) _ _) _ _) _ _
  have h24 : 24 < pkt.length := by omega
  have h25 : 25 < pkt.length := by omega
  refine cksum_ip_stored _ hb2 (by simp; omega) (by simp [rd_st16, h24, h25])
    (by simp [rd_st16, h24, h25]) _ ?_
  intro i h1 h2
  simp only [echo_reply_frame, rd_st16, rd_wr, sizeof_sr_ip_hdr_t]
  rw [if_neg (by omega), if_neg (by omega), if_neg (by omega), if_neg (by omega),
    if_neg (by omega), if_neg (by omega)]

/-- What `send_icmp_echo_reply` does once the inbound interface is found: one
action, a send or a queue of the rewritten receive buffer, equal to
`echo_reply_frame` from byte 6 on. -/
theorem send_icmp_echo_reply_spec (sr : sr_instance) (pkt : List Nat) (interface : String)
    (len : Nat) (my_int : sr_if) (hin : sr_get_interface sr interface = some my_int) :
    ∃ buf a, send_icmp_echo_reply sr pkt interface len = some (buf, [a]) ∧
      a.is_emit = true ∧ a.len = len ∧ a.frame.length = pkt.length ∧
      ∀ j, 6 ≤ j → rd a.frame j = rd (echo_reply_frame my_int pkt) j := by
  unfold send_icmp_echo_reply
  rw [hin]
  dsimp only
  have hlen := length_echo_reply_frame my_int pkt
  generalize echo_reply_frame my_int pkt = f at hlen ⊢
  cases hlk : sr_arpcache_lookup sr (ld32 f 30) with
  | none =>
    exact ⟨_, _, rfl, rfl, rfl, hlen, fun j _ => rfl⟩
  | some entry =>
    refine ⟨_, _, rfl, rfl, rfl, ?_, ?_⟩
    · simp [Action.frame, hlen]
    · intro j hj
      simp only [Action.frame, rd_memcpy, ETHER_ADDR_LEN]
      rw [if_neg (by omega)]

/-- C8: for a frame whose IP total length `L` satisfies `28 <= L <= len - 14`, the
reply that `send_icmp_echo_reply` sends or queues has valid checksums: the
Internet checksum recomputed over its 20 IP header bytes is zero, and
recomputed over its `L - 20` ICMP bytes it is zero. -/
theorem echo_reply_checksums_valid (sr : sr_instance) (pkt : List Nat) (interface : String)
    (len : Nat) (my_int : sr_if) (L : Nat) (hb : bytes_ok pkt) (hl : pkt.length = len)
    (hL : ntohs (ld16 pkt 16) = L) (h28 : 28 ≤ L) (hLl : L ≤ len - 14)
    (hin : sr_get_interface sr interface = some my_int) :
    ∃ buf a, send_icmp_echo_reply sr pkt interface len = some (buf, [a]) ∧
      a.is_emit = true ∧ ntohs (ld16 a.frame 16) = L ∧
      cksum a.frame 14 20 = 0 ∧ cksum a.frame 34 (L - 20) = 0 := by
  obtain ⟨buf, a, ha, hemit, _, _, hrd⟩ := send_icmp_echo_reply_spec sr pkt interface len my_int hin
  refine ⟨buf, a, ha, hemit, ?_, ?_, ?_⟩
  · rw [ld16_congr a.frame pkt 16 (fun i h1 h2 => by
      rw [hrd i (by omega), rd_echo_reply_frame_ip my_int pkt i (by omega) (by omega)])]
    exact hL
  · rw [cksum_congr a.frame (echo_reply_frame my_int pkt) 14 20 (fun i h1 _ => hrd i (by omega))]
    exact cksum_echo_reply_ip my_int pkt hb (by omega)
  · rw [cksum_congr a.frame (echo_reply_frame my_int pkt) 34 (L - 20)
      (fun i h1 _ => hrd i (by omega))]
    exact cksum_echo_reply_icmp my_int pkt hb (by omega) L hL (by omega)

/-- C8 at the echo request with id 7, seq 1 and payload "abcd" (total length 32). -/
theorem echo_reply_checksums_valid_witness :
    (bytes_ok frame_echo ∧ frame_echo.length = 46 ∧ ntohs (ld16 frame_echo 16) = 32 ∧
      28 ≤ 32 ∧ 32 ≤ 46 - 14 ∧ sr_get_interface demo_sr "eth1" = some demo_eth1) ∧
    ∃ buf a, send_icmp_echo_reply demo_sr frame_echo "eth1" 46 = some (buf, [a]) ∧
      a.is_emit = true ∧ ntohs (ld16 a.frame 16) = 32 ∧
      cksum a.frame 14 20 = 0 ∧ cksum a.frame 34 (32 - 20) = 0 :=
  ⟨by decide,
    echo_reply_checksums_valid demo_sr frame_echo "eth1" 46 demo_eth1 32
      (by decide) (by decide) (by decide) (by decide) (by decide) (by decide)⟩

theorem handle_ip_local_echo (sr : sr_instance) (pkt : List Nat) (len : Nat)
    (interface : String) (local_if : sr_if) (hb : bytes_ok pkt)
    (hv : (check_ip_packet pkt len).1 = true)
    (hloc : sr_get_interface_by_IP sr (ld32 pkt 30) = some local_if)
    (hp : rd pkt 23 = 1) (ht8 : rd pkt 34 = 8)
    (hicmp : (check_icmp_packet pkt len).1 = true) :
    handle_ip sr pkt len interface = send_icmp_echo_reply sr pkt interface len := by
  obtain ⟨_, hbuf⟩ := check_ip_packet_true pkt len hb hv
  unfold handle_ip
  simp only [hv, hbuf, hloc, hp, ht8, hicmp, check_icmp_packet_buf pkt len hb]
  simp

/-- C7: a valid ICMP echo request (IPv4 protocol 1, ICMP type 8, valid IP and ICMP
checksums, long enough to hold the ICMP checksum field) addressed to a local
interface makes `sr_handlepacket` perform exactly one action, the send or queue
of a reply frame that has the length of the request, IP source = the request's
IP destination, IP destination = the request's IP source, ICMP type 0 and
code 0, Ethernet source = the MAC of the interface the request arrived on, and
every byte after the ICMP checksum (offset 38 on: identifier, sequence number,
payload) equal to the request's. -/
theorem handlepacket_echo_reply (sr : sr_instance) (pkt : List Nat) (len : Nat)
    (interface : String) (in_if local_if : sr_if) (hb : bytes_ok pkt)
    (hl : pkt.length = len) (h38 : 38 ≤ len)
    (hty : ethertype pkt = ethertype_ip)
    (hv : (check_ip_packet pkt len).1 = true)
    (hloc : sr_get_interface_by_IP sr (ld32 pkt 30) = some local_if)
    (hp : rd pkt 23 = 1) (ht8 : rd pkt 34 = 8)
    (hicmp : (check_icmp_packet pkt len).1 = true)
    (hin : sr_get_interface sr interface = some in_if) (hmac : bytes_ok in_if.addr) :
    ∃ buf a, sr_handlepacket sr pkt len interface = some (buf, [a]) ∧ a.is_emit = true ∧
      a.len = len ∧ a.frame.length = len ∧
      ld32 a.frame 26 = ld32 pkt 30 ∧ ld32 a.frame 30 = ld32 pkt 26 ∧
      rd a.frame 34 = 0 ∧ rd a.frame 35 = 0 ∧
      (∀ i, i < 6 → rd a.frame (6 + i) = rd in_if.addr i) ∧
      ∀ j, 38 ≤ j → rd a.frame j = rd pkt j := by
  obtain ⟨buf, a, ha, hemit, halen, hflen, hrd⟩ :=
    send_icmp_echo_reply_spec sr pkt interface len in_if hin
  obtain ⟨hs, hd⟩ := ld32_echo_reply_frame in_if pkt hb (by omega)
  obtain ⟨ht, hc⟩ := rd_echo_reply_frame_type in_if pkt (by omega)
  refine ⟨buf, a, ?_, hemit, halen, by rw [hflen, hl], ?_, ?_, ?_, ?_, ?_, ?_⟩
  · rw [handlepacket_ip sr pkt len interface hty (by omega),
      handle_ip_local_echo sr pkt len interface local_if hb hv hloc hp ht8 hicmp, ha]
  · rw [ld32_congr a.frame (echo_reply_frame in_if pkt) 26 (fun i h1 _ => hrd i (by omega)), hs]
  · rw [ld32_congr a.frame (echo_reply_frame in_if pkt) 30 (fun i h1 _ => hrd i (by omega)), hd]
  · rw [hrd 34 (by omega), ht]
  · rw [hrd 35 (by omega), hc]
  · intro i hi
    rw [hrd (6 + i) (by omega)]
    exact rd_echo_reply_frame_shost in_if pkt (by omega) hmac i hi
  · intro j hj
    rw [hrd j (by omega)]
    exact rd_echo_reply_frame_tail in_if pkt j hj

/-- C7 at the echo request from 10.0.1.9 to 10.0.1.1 with id 7, seq 1, payload "abcd". -/
theorem handlepacket_echo_reply_witness :
    (bytes_ok frame_echo ∧ frame_echo.length = 46 ∧ 38 ≤ 46 ∧
      ethertype frame_echo = ethertype_ip ∧ (check_ip_packet frame_echo 46).1 = true ∧
      sr_get_interface_by_IP demo_sr (ld32 frame_echo 30) = some demo_eth1 ∧
      rd frame_echo 23 = 1 ∧ rd frame_echo 34 = 8 ∧
      (check_icmp_packet frame_echo 46).1 = true ∧
      sr_get_interface demo_sr "eth1" = some demo_eth1 ∧ bytes_ok demo_eth1.addr) ∧
    ∃ buf a, sr_handlepacket demo_sr frame_echo 46 "eth1" = some (buf, [a]) ∧
      a.is_emit = true ∧ a.len = 46 ∧ a.frame.length = 46 ∧
      ld32 a.frame 26 = ld32 frame_echo 30 ∧ ld32 a.frame 30 = ld32 frame_echo 26 ∧
      rd a.frame 34 = 0 ∧ rd a.frame 35 = 0 ∧
      (∀ i, i < 6 → rd a.frame (6 + i) = rd demo_eth1.addr i) ∧
      ∀ j, 38 ≤ j → rd a.frame j = rd frame_echo j :=
  ⟨by decide,
    handlepacket_echo_reply demo_sr frame_echo 46 "eth1" demo_eth1 demo_eth1
      (by decide) (by decide) (by decide) (by decide) (by decide) (by decide) (by decide)
      (by decide) (by decide) (by decide) (by decide)⟩

/-! ### Departures of `forward_ip` from the forwarding contract -/

set_option maxRecDepth 100000

/-- C4 (the code departs from it): in the scenario of the claim (route 20.0.0.0/8
via 10.0.2.2 on `eth2`, ARP cache holding an unexpired entry for the gateway
10.0.2.2, valid packet to 20.1.2.3 with TTL 10 arriving on `eth1`) the frame is
not transmitted: `forward_ip` looks the packet's destination 20.1.2.3 up in the
ARP cache instead of the gateway, misses, and queues the frame against 20.1.2.3. -/
theorem forward_ip_ignores_gateway :
    longest_prefix_match demo_sr (ld32 frame_fwd 30) = some (some demo_rt) ∧
      demo_rt.gw = ipv4 10 0 2 2 ∧
      sr_arpcache_lookup demo_sr demo_rt.gw = some demo_entry ∧
      sr_arpcache_lookup demo_sr (ipv4 20 1 2 3) = none ∧
      sr_handlepacket demo_sr frame_fwd 42 "eth1" =
        some (frame_fwd_out, [Action.queue (ipv4 20 1 2 3) frame_fwd_out 42 "eth2"]) := by
  decide

/-- C5 (the code departs from it): the valid packet to 20.1.2.3 arriving on `eth1`
with TTL 1 makes `sr_handlepacket` queue the ICMP Time Exceeded message for
10.0.1.9 and then go on: the route lookup is acted on and the packet itself,
now with TTL 0, is queued for ARP on `eth2`. -/
theorem forward_ip_ttl_expired_falls_through :
    (check_ip_packet frame_ttl1 42).1 = true ∧ rd frame_ttl1 22 = 1 ∧
      sr_get_interface_by_IP demo_sr (ld32 frame_ttl1 30) = none ∧
      rd frame_ttl1_icmp 34 = 11 ∧ rd frame_ttl1_icmp 35 = 0 ∧ rd frame_ttl1_out 22 = 0 ∧
      sr_handlepacket demo_sr frame_ttl1 42 "eth1" =
        some (frame_ttl1_out,
          [Action.queue (ipv4 10 0 1 9) frame_ttl1_icmp 70 "eth1",
           Action.queue (ipv4 20 1 2 3) frame_ttl1_out 42 "eth2"]) := by
  decide


/-! ### What `longest_prefix_match` computes -/

theorem lpm_loop_first_max (dest_addr : Nat) (rt : List sr_rt) :
    ∀ (longest : Option sr_rt) (len : Nat),
      (lpm_loop dest_addr rt longest len = longest ∧
        ∀ e ∈ rt, (e.dest &&& e.mask) = (dest_addr &&& e.mask) → (e.mask &&& dest_addr) ≤ len) ∨
      (∃ l1 r l2, rt = l1 ++ r :: l2 ∧ lpm_loop dest_addr rt longest len = some r ∧
        (r.dest &&& r.mask) = (dest_addr &&& r.mask) ∧ len < (r.mask &&& dest_addr) ∧
        (∀ e ∈ l1, (e.dest &&& e.mask) = (dest_addr &&& e.mask) →
          (e.mask &&& dest_addr) < (r.mask &&& dest_addr)) ∧
        (∀ e ∈ l2, (e.dest &&& e.mask) = (dest_addr &&& e.mask) →
          (e.mask &&& dest_addr) ≤ (r.mask &&& dest_addr))) := by
  induction rt with
  | nil =>
    intro longest len
    left
    exact ⟨rfl, fun e he => by simp at he⟩
  | cons w next ih =>
    intro longest len
    by_cases hm : (w.dest &&& w.mask) = (dest_addr &&& w.mask)
    · by_cases hg : (w.mask &&& dest_addr) > len
      · have hstep : lpm_loop dest_addr (w :: next) longest len
            = lpm_loop dest_addr next (some w) (w.mask &&& dest_addr) := by
          rw [lpm_loop, if_pos hm, if_pos hg]
        right
        rcases ih (some w) (w.mask &&& dest_addr) with ⟨h1, h2⟩ | ⟨l1, r, l2, e1, e2, e3, e4, e5, e6⟩
        · exact ⟨[], w, next, rfl, by rw [hstep, h1], hm, hg, fun e he => by simp at he, h2⟩
        · refine ⟨w :: l1, r, l2, by rw [e1]; rfl, by rw [hstep, e2], e3, by omega, ?_, e6⟩
          intro e he hme
          rcases List.mem_cons.mp he with rfl | he'
          · exact e4
          · exact e5 e he' hme
      · have hstep : lpm_loop dest_addr (w :: next) longest len
            = lpm_loop dest_addr next longest len := by
          rw [lpm_loop, if_pos hm, if_neg hg]
        rcases ih longest len with ⟨h1, h2⟩ | ⟨l1, r, l2, e1, e2, e3, e4, e5, e6⟩
        · left
          refine ⟨by rw [hstep, h1], ?_⟩
          intro e he hme
          rcases List.mem_cons.mp he with rfl | he'
          · omega
          · exact h2 e he' hme
        · right
          refine ⟨w :: l1, r, l2, by rw [e1]; rfl, by rw [hstep, e2], e3, e4, ?_, e6⟩
          intro e he hme
          rcases List.mem_cons.mp he with rfl | he'
          · omega
          · exact e5 e he' hme
    · have hstep : lpm_loop dest_addr (w :: next) longest len
          = lpm_loop dest_addr next longest len := by
        rw [lpm_loop, if_neg hm]
      rcases ih longest len with ⟨h1, h2⟩ | ⟨l1, r, l2, e1, e2, e3, e4, e5, e6⟩
      · left
        refine ⟨by rw [hstep, h1], ?_⟩
        intro e he hme
        rcases List.mem_cons.mp he with rfl | he'
        · exact absurd hme hm
        · exact h2 e he' hme
      · right
        refine ⟨w :: l1, r, l2, by rw [e1]; rfl, by rw [hstep, e2], e3, e4, ?_, e6⟩
        intro e he hme
        rcases List.mem_cons.mp he with rfl | he'
        · exact absurd hme hm
        · exact e5 e he' hme

/-- C18: for a non-zero destination `d`, `longest_prefix_match` returns the first
entry in scan order among the matching entries whose `mask & d` is the maximum
over all matching entries, provided that maximum is above 0 (every matching
entry before it has a strictly smaller `mask & d`, every matching entry after
it a smaller or equal one); when no entry matches or every matching entry has
`mask & d = 0` it returns no route. -/
theorem longest_prefix_match_first_max_masked (sr : sr_instance) (d : Nat) (hd : d ≠ 0) :
    (∃ l1 r l2, sr.routing_table = l1 ++ r :: l2 ∧
        longest_prefix_match sr d = some (some r) ∧
        (r.dest &&& r.mask) = (d &&& r.mask) ∧ 0 < (r.mask &&& d) ∧
        (∀ e ∈ l1, (e.dest &&& e.mask) = (d &&& e.mask) → (e.mask &&& d) < (r.mask &&& d)) ∧
        (∀ e ∈ l2, (e.dest &&& e.mask) = (d &&& e.mask) → (e.mask &&& d) ≤ (r.mask &&& d))) ∨
      (longest_prefix_match sr d = some none ∧
        ∀ e ∈ sr.routing_table, (e.dest &&& e.mask) = (d &&& e.mask) → (e.mask &&& d) = 0) := by
  unfold longest_prefix_match
  rw [if_neg hd]
  rcases lpm_loop_first_max d sr.routing_table none 0 with
    ⟨h1, h2⟩ | ⟨l1, r, l2, e1, e2, e3, e4, e5, e6⟩
  · right
    exact ⟨by rw [h1], fun e he hme => Nat.le_zero.mp (h2 e he hme)⟩
  · left
    exact ⟨l1, r, l2, e1, by rw [e2], e3, e4, e5, e6⟩

/-- C18 at the table [10.0.0.0/8, 10.0.0.0/16] and the destination 10.0.2.3. -/
theorem longest_prefix_match_first_max_masked_witness :
    ipv4 10 0 2 3 ≠ 0 ∧
    ((∃ l1 r l2, nested_sr.routing_table = l1 ++ r :: l2 ∧
        longest_prefix_match nested_sr (ipv4 10 0 2 3) = some (some r) ∧
        (r.dest &&& r.mask) = (ipv4 10 0 2 3 &&& r.mask) ∧ 0 < (r.mask &&& ipv4 10 0 2 3) ∧
        (∀ e ∈ l1, (e.dest &&& e.mask) = (ipv4 10 0 2 3 &&& e.mask) →
          (e.mask &&& ipv4 10 0 2 3) < (r.mask &&& ipv4 10 0 2 3)) ∧
        (∀ e ∈ l2, (e.dest &&& e.mask) = (ipv4 10 0 2 3 &&& e.mask) →
          (e.mask &&& ipv4 10 0 2 3) ≤ (r.mask &&& ipv4 10 0 2 3))) ∨
      (longest_prefix_match nested_sr (ipv4 10 0 2 3) = some none ∧
        ∀ e ∈ nested_sr.routing_table, (e.dest &&& e.mask) = (ipv4 10 0 2 3 &&& e.mask) →
          (e.mask &&& ipv4 10 0 2 3) = 0)) :=
  ⟨by decide, longest_prefix_match_first_max_masked nested_sr (ipv4 10 0 2 3) (by decide)⟩

/-! ### Departures of the packet checks and of the TTL handling -/

/-- C17 (the code departs from it): the 38-byte echo request `frame_short_echo`
(protocol 1, addressed to the router's 10.0.1.1, shorter than 14 + 20 + 8 = 42
bytes) passes `check_icmp_packet`, whose length test compares the frame length
with the ICMP header size alone, and `sr_handlepacket` queues an echo reply. -/
theorem short_icmp_frame_is_answered :
    frame_short_echo.length = 38 ∧ 38 < 14 + 20 + 8 ∧ rd frame_short_echo 23 = 1 ∧
      sr_get_interface_by_IP demo_sr (ld32 frame_short_echo 30) = some demo_eth1 ∧
      (check_icmp_packet frame_short_echo 38).1 = true ∧
      sr_handlepacket demo_sr frame_short_echo 38 "eth1" =
        some (frame_short_echo_reply,
          [Action.queue (ipv4 10 0 1 9) frame_short_echo_reply 38 "eth1"]) := by
  decide

/-- C19 (the code departs from it): the valid packet to 20.1.2.3 arriving with
TTL 0 is forwarded: the 8-bit decrement wraps to 255, the test `ip_ttl <= 0`
fails, and `forward_ip` queues the packet on `eth2` with TTL 255. -/
theorem forward_ip_ttl_zero_wraps :
    (check_ip_packet frame_ttl0 42).1 = true ∧ rd frame_ttl0 22 = 0 ∧
      rd frame_ttl0_out 22 = 255 ∧
      forward_ip demo_sr frame_ttl0 42 "eth1" =
        some (frame_ttl0_out, [Action.queue (ipv4 20 1 2 3) frame_ttl0_out 42 "eth2"]) := by
  decide

/-- C20 (the code departs from it): on a checksum mismatch `check_ip_packet`
returns 0 with the checksum field still zeroed: for `frame_bad_sum` the buffer
after the call differs from the buffer before it in bytes 24 and 25. -/
theorem check_ip_packet_zeroes_bad_sum :
    check_ip_packet frame_bad_sum 42 = (false, frame_bad_sum_out) ∧
      frame_bad_sum_out ≠ frame_bad_sum ∧
      rd frame_bad_sum 24 = 18 ∧ rd frame_bad_sum 25 = 52 ∧
      rd frame_bad_sum_out 24 = 0 ∧ rd frame_bad_sum_out 25 = 0 := by
  decide


/-! ### The frame of `send_icmp3_error`, field by field -/

theorem icmp3_frame_eq (type code : Nat) (in_if : sr_if) (orig : List Nat) :
    icmp3_frame type code in_if orig =
      st16 (icmp3_icmp_zeroed type code in_if orig) 36
        (cksum (icmp3_icmp_zeroed type code in_if orig) 34 sizeof_sr_icmp_t3_hdr_t) := rfl

theorem length_icmp3_ip_zeroed (code : Nat) (in_if : sr_if) (orig : List Nat) :
    (icmp3_ip_zeroed code in_if orig).length = 70 := by
  simp [icmp3_ip_zeroed, sizeof_sr_ethernet_hdr_t, sizeof_sr_icmp_t3_hdr_t, sizeof_sr_ip_hdr_t]

theorem length_icmp3_icmp_zeroed (type code : Nat) (in_if : sr_if) (orig : List Nat) :
    (icmp3_icmp_zeroed type code in_if orig).length = 70 := by
  simp [icmp3_icmp_zeroed, length_icmp3_ip_zeroed]

theorem bytes_ok_icmp3_ip_zeroed (code : Nat) (in_if : sr_if) (orig : List Nat) :
    bytes_ok (icmp3_ip_zeroed code in_if orig) := by
  unfold icmp3_ip_zeroed
  exact bytes_ok_st32 _ (bytes_ok_st32 _ (bytes_ok_st16 _ (bytes_ok_wr _ (bytes_ok_wr _
    (bytes_ok_st16 _ (bytes_ok_st16 _ (bytes_ok_wr _ (bytes_ok_st16 _ (bytes_ok_wr _
    (bytes_ok_wr _ (bytes_ok_memcpy _ (bytes_ok_st16 _ (bytes_ok_memset _ (bytes_ok_memcpy _
    (bytes_ok_malloc _) _ _ _ _) _ _ _) _ _) _ _ _ _) _ _) _ _) _ _) _ _) _ _) _ _) _ _) _ _)
    _ _) _ _) _ _

theorem bytes_ok_icmp3_icmp_zeroed (type code : Nat) (in_if : sr_if) (orig : List Nat) :
    bytes_ok (icmp3_icmp_zeroed type code in_if orig) := by
  unfold icmp3_icmp_zeroed
  exact bytes_ok_st16 _ (bytes_ok_memcpy _ (bytes_ok_st16 _ (bytes_ok_st16 _ (bytes_ok_wr _
    (bytes_ok_wr _ (bytes_ok_st16 _ (bytes_ok_icmp3_ip_zeroed code in_if orig) _ _) _ _) _ _)
    _ _) _ _) _ _ _ _) _ _

theorem cksum_icmp3_frame_icmp (type code : Nat) (in_if : sr_if) (orig : List Nat) :
    cksum (icmp3_frame type code in_if orig) 34 36 = 0 := by
  rw [icmp3_frame_eq]
  have hl := length_icmp3_icmp_zeroed type code in_if orig
  have h0 : rd (icmp3_icmp_zeroed type code in_if orig) (34 + 2 * 1) = 0 := by
    simp [icmp3_icmp_zeroed, rd_st16, length_icmp3_ip_zeroed]
  have h1 : rd (icmp3_icmp_zeroed type code in_if orig) (34 + 2 * 1 + 1) = 0 := by
    simp [icmp3_icmp_zeroed, rd_st16, length_icmp3_ip_zeroed]
  exact cksum_st16_valid _ (bytes_ok_icmp3_icmp_zeroed type code in_if orig) 34 36 1
    (by omega) (by omega) h0 h1

theorem cksum_icmp3_frame_ip (type code : Nat) (in_if : sr_if) (orig : List Nat) :
    cksum (icmp3_frame type code in_if orig) 14 20 = 0 := by
  have hl := length_icmp3_ip_zeroed code in_if orig
  have h0 : rd (icmp3_ip_zeroed code in_if orig) 24 = 0 := by
    simp [icmp3_ip_zeroed, rd_st16, rd_st32, sizeof_sr_ethernet_hdr_t,
      sizeof_sr_icmp_t3_hdr_t, sizeof_sr_ip_hdr_t]
  have h1 : rd (icmp3_ip_zeroed code in_if orig) 25 = 0 := by
    simp [icmp3_ip_zeroed, rd_st16, rd_st32, sizeof_sr_ethernet_hdr_t,
      sizeof_sr_icmp_t3_hdr_t, sizeof_sr_ip_hdr_t]
  refine cksum_ip_stored _ (bytes_ok_icmp3_ip_zeroed code in_if orig) (by omega) h0 h1 _ ?_
  intro i hi1 hi2
  rw [icmp3_frame_eq]
  simp only [icmp3_icmp_zeroed, sizeof_sr_ip_hdr_t, ICMP_DATA_SIZE]
  generalize icmp3_ip_zeroed code in_if orig = p
  simp only [rd_st16, rd_wr, rd_memcpy]
  repeat rw [if_neg (by omega)]

/-- C13: the frame that `send_icmp3_error` sends or queues carries valid
checksums, whatever the type, the code and the original packet: the Internet
checksum recomputed over its 20 IP header bytes is zero, and recomputed over
its 36 ICMP bytes (type-3 header plus 28 data bytes) it is zero. -/
theorem send_icmp3_error_checksums_valid (type code : Nat) (sr : sr_instance)
    (orig : List Nat) (interface : String) (in_if : sr_if)
    (hin : sr_get_interface sr interface = some in_if) :
    ∃ a, send_icmp3_error type code sr orig interface = some [a] ∧ a.is_emit = true ∧
      cksum a.frame 14 20 = 0 ∧ cksum a.frame 34 36 = 0 := by
  obtain ⟨a, ha, hemit, _, _, _, hrd⟩ := send_icmp3_error_spec type code sr orig interface in_if hin
  refine ⟨a, ha, hemit, ?_, ?_⟩
  · rw [cksum_congr a.frame (icmp3_frame type code in_if orig) 14 20
      (fun i h1 _ => hrd i (by omega))]
    exact cksum_icmp3_frame_ip type code in_if orig
  · rw [cksum_congr a.frame (icmp3_frame type code in_if orig) 34 36
      (fun i h1 _ => hrd i (by omega))]
    exact cksum_icmp3_frame_icmp type code in_if orig

/-- C13 at the Port Unreachable message for the UDP datagram `frame_udp`. -/
theorem send_icmp3_error_checksums_valid_witness :
    sr_get_interface demo_sr "eth1" = some demo_eth1 ∧
    ∃ a, send_icmp3_error 3 3 demo_sr frame_udp "eth1" = some [a] ∧ a.is_emit = true ∧
      cksum a.frame 14 20 = 0 ∧ cksum a.frame 34 36 = 0 :=
  ⟨by decide, send_icmp3_error_checksums_valid 3 3 demo_sr frame_udp "eth1" demo_eth1 (by decide)⟩

theorem sr_get_interface_name (sr : sr_instance) (name : String) (i : sr_if)
    (h : sr_get_interface sr name = some i) : i.name = name := by
  unfold sr_get_interface at h
  have := List.find?_some h
  simpa using this

theorem icmp3_frame_ip_fixed (type code : Nat) (in_if : sr_if) (orig : List Nat) :
    rd (icmp3_frame type code in_if orig) 14 = 69 ∧
      rd (icmp3_frame type code in_if orig) 15 = 0 ∧
      ntohs (ld16 (icmp3_frame type code in_if orig) 16) = 56 ∧
      ld16 (icmp3_frame type code in_if orig) 18 = 0 ∧
      ntohs (ld16 (icmp3_frame type code in_if orig) 20) = IP_DF ∧
      rd (icmp3_frame type code in_if orig) 22 = 64 ∧
      ld16 (icmp3_frame type code in_if orig) 38 = 0 ∧
      ld16 (icmp3_frame type code in_if orig) 40 = 0 := by
  refine ⟨?_, ?_, ?_, ?_, ?_, ?_, ?_, ?_⟩ <;>
  simp [ntohs, ld16, icmp3_frame, rd_st16, rd_wr, rd_memcpy, rd_memset, rd_malloc, rd_st32,
    sizeof_sr_ethernet_hdr_t, sizeof_sr_icmp_t3_hdr_t, sizeof_sr_ip_hdr_t, ICMP_DATA_SIZE,
    ETHER_ADDR_LEN, IP_DF, htons]

theorem icmp3_frame_shost (type code : Nat) (in_if : sr_if) (orig : List Nat)
    (hmac : bytes_ok in_if.addr) (i : Nat) (hi : i < 6) :
    rd (icmp3_frame type code in_if orig) (6 + i) = rd in_if.addr i := by
  have hm := rd_lt_256 in_if.addr hmac i
  rw [icmp3_frame_eq]
  simp only [icmp3_icmp_zeroed, icmp3_ip_zeroed, rd_st16, rd_wr, rd_st32, rd_memset, rd_memcpy,
    ETHER_ADDR_LEN, ICMP_DATA_SIZE, length_memcpy, length_memset, length_st16, length_st32,
    length_wr, length_malloc, sizeof_sr_ethernet_hdr_t, sizeof_sr_icmp_t3_hdr_t,
    sizeof_sr_ip_hdr_t]
  repeat rw [if_neg (by omega)]
  rw [if_pos (by omega)]
  have : 0 + (6 + i - 6) = i := by omega
  rw [this]
  omega

theorem icmp3_frame_data (type code : Nat) (in_if : sr_if) (orig : List Nat)
    (hb : bytes_ok orig) (i : Nat) (hi : i < 28) :
    rd (icmp3_frame type code in_if orig) (42 + i) = rd orig (14 + i) := by
  have hm := rd_lt_256 orig hb (14 + i)
  rw [icmp3_frame_eq]
  simp only [icmp3_icmp_zeroed, rd_st16, rd_memcpy, ICMP_DATA_SIZE, length_st16, length_wr,
    length_icmp3_ip_zeroed, length_memcpy]
  repeat rw [if_neg (by omega)]
  rw [if_pos (by omega)]
  have : 14 + (42 + i - 42) = 14 + i := by omega
  rw [this]
  omega

/-- C11: for a type and a code in the range of the 8-bit ICMP fields, any
original packet and any inbound interface of the router, `send_icmp3_error`
emits, on the inbound interface, one frame of exactly 70 bytes with EtherType
0x0800, Ethernet source = the inbound interface's MAC, IPv4 version 4, IHL 5,
TOS 0, total length 56, identifier 0, flags/offset = DF only, TTL 64,
protocol 1, IP destination = the original packet's IP source, IP source = the
original packet's IP destination when the code is 3 and the inbound interface's
IPv4 otherwise, ICMP type and code as supplied, and ICMP unused and next-MTU
fields zero. -/
theorem send_icmp3_error_frame (type code : Nat) (sr : sr_instance) (orig : List Nat)
    (interface : String) (in_if : sr_if) (ht : type < 256) (hc : code < 256)
    (hb : bytes_ok orig) (hin : sr_get_interface sr interface = some in_if)
    (hmac : bytes_ok in_if.addr) (hip : in_if.ip < 2 ^ 32) :
    ∃ a, send_icmp3_error type code sr orig interface = some [a] ∧ a.is_emit = true ∧
      a.len = 70 ∧ a.frame.length = 70 ∧ a.iface = interface ∧
      ethertype a.frame = 0x0800 ∧
      (∀ i, i < 6 → rd a.frame (6 + i) = rd in_if.addr i) ∧
      rd a.frame 14 / 16 = 4 ∧ rd a.frame 14 % 16 = 5 ∧ rd a.frame 15 = 0 ∧
      ntohs (ld16 a.frame 16) = 56 ∧ ld16 a.frame 18 = 0 ∧
      ntohs (ld16 a.frame 20) = IP_DF ∧ rd a.frame 22 = 64 ∧ rd a.frame 23 = 1 ∧
      ld32 a.frame 30 = ld32 orig 26 ∧
      ld32 a.frame 26 = (if code = 3 then ld32 orig 30 else in_if.ip) ∧
      rd a.frame 34 = type ∧ rd a.frame 35 = code ∧
      ld16 a.frame 38 = 0 ∧ ld16 a.frame 40 = 0 := by
  obtain ⟨a, ha, hemit, hlen, hif, hfl, hrd⟩ :=
    send_icmp3_error_spec type code sr orig interface in_if hin
  obtain ⟨f14, f15, f16, f18, f20, f22, f38, f40⟩ := icmp3_frame_ip_fixed type code in_if orig
  have h16 : ∀ o, 6 ≤ o → ld16 a.frame o = ld16 (icmp3_frame type code in_if orig) o :=
    fun o ho => ld16_congr _ _ o (fun i h1 _ => hrd i (by omega))
  have h32 : ∀ o, 6 ≤ o → ld32 a.frame o = ld32 (icmp3_frame type code in_if orig) o :=
    fun o ho => ld32_congr _ _ o (fun i h1 _ => hrd i (by omega))
  refine ⟨a, ha, hemit, hlen, hfl, ?_, ?_, ?_, ?_, ?_, ?_, ?_, ?_, ?_, ?_, ?_, ?_, ?_, ?_, ?_,
    ?_, ?_⟩
  · rw [hif]; exact sr_get_interface_name sr interface in_if hin
  · have := icmp3_frame_ethertype type code in_if orig
    unfold ethertype at this ⊢
    rw [h16 12 (by omega)]
    exact this
  · intro i hi
    rw [hrd (6 + i) (by omega)]
    exact icmp3_frame_shost type code in_if orig hmac i hi
  · rw [hrd 14 (by omega), f14]
  · rw [hrd 14 (by omega), f14]
  · rw [hrd 15 (by omega), f15]
  · rw [h16 16 (by omega), f16]
  · rw [h16 18 (by omega), f18]
  · rw [h16 20 (by omega), f20]
  · rw [hrd 22 (by omega), f22]
  · rw [hrd 23 (by omega)]; exact icmp3_frame_proto type code in_if orig
  · rw [h32 30 (by omega)]; exact icmp3_frame_dst type code in_if orig hb
  · rw [h32 26 (by omega)]; exact icmp3_frame_src type code in_if orig hb hip
  · rw [hrd 34 (by omega), icmp3_frame_type]; omega
  · rw [hrd 35 (by omega), icmp3_frame_code]; omega
  · rw [h16 38 (by omega), f38]
  · rw [h16 40 (by omega), f40]

/-- C11 at the Host Unreachable message (type 3, code 1) for `frame_fwd` on `eth1`. -/
theorem send_icmp3_error_frame_witness :
    (3 < 256 ∧ 1 < 256 ∧ bytes_ok frame_fwd ∧
      sr_get_interface demo_sr "eth1" = some demo_eth1 ∧
      bytes_ok demo_eth1.addr ∧ demo_eth1.ip < 2 ^ 32) ∧
    ∃ a, send_icmp3_error 3 1 demo_sr frame_fwd "eth1" = some [a] ∧ a.is_emit = true ∧
      a.len = 70 ∧ a.frame.length = 70 ∧ a.iface = "eth1" ∧
      ethertype a.frame = 0x0800 ∧
      (∀ i, i < 6 → rd a.frame (6 + i) = rd demo_eth1.addr i) ∧
      rd a.frame 14 / 16 = 4 ∧ rd a.frame 14 % 16 = 5 ∧ rd a.frame 15 = 0 ∧
      ntohs (ld16 a.frame 16) = 56 ∧ ld16 a.frame 18 = 0 ∧
      ntohs (ld16 a.frame 20) = IP_DF ∧ rd a.frame 22 = 64 ∧ rd a.frame 23 = 1 ∧
      ld32 a.frame 30 = ld32 frame_fwd 26 ∧
      ld32 a.frame 26 = (if 1 = 3 then ld32 frame_fwd 30 else demo_eth1.ip) ∧
      rd a.frame 34 = 3 ∧ rd a.frame 35 = 1 ∧
      ld16 a.frame 38 = 0 ∧ ld16 a.frame 40 = 0 :=
  ⟨by decide,
    send_icmp3_error_frame 3 1 demo_sr frame_fwd "eth1" demo_eth1
      (by decide) (by decide) (by decide) (by decide) (by decide) (by decide)⟩


/-! ### The data quoted by the ICMP errors -/

theorem forward_ip_ttl_one (sr : sr_instance) (pkt : List Nat) (len : Nat)
    (interface : String) (in_if : sr_if) (hb : bytes_ok pkt) (hl : pkt.length = len)
    (hv : (check_ip_packet pkt len).1 = true) (ht : rd pkt 22 = 1)
    (hin : sr_get_interface sr interface = some in_if) :
    ∃ a, a.is_emit = true ∧
      (∀ j, 6 ≤ j → rd a.frame j =
        rd (icmp3_frame 11 0 in_if (wr pkt 22 (rd pkt 22 + 255))) j) ∧
      ∀ out acts, forward_ip sr pkt len interface = some (out, acts) →
        ∃ rest, acts = a :: rest := by
  obtain ⟨h34, hbuf⟩ := check_ip_packet_true pkt len hb hv
  obtain ⟨a, ha, hemit, _, _, _, hrd⟩ :=
    send_icmp3_error_spec 11 0 sr (wr pkt 22 (rd pkt 22 + 255)) interface in_if hin
  refine ⟨a, hemit, hrd, ?_⟩
  intro out acts h
  have httl : rd (wr pkt 22 (rd pkt 22 + 255)) 22 = 0 := by
    rw [rd_wr, if_pos ⟨rfl, by omega⟩, ht]
  unfold forward_ip at h
  simp only [hv, hbuf, httl, if_true, Bool.true_eq_false, if_false, ha] at h
  split at h
  · simp at h
  · split at h
    · simp at h
    · split at h
      · simp only [Option.some.injEq, Prod.mk.injEq] at h
        exact ⟨_, h.2.symm⟩
      · simp only [Option.some.injEq, Prod.mk.injEq] at h
        exact ⟨_, h.2.symm⟩
  · split at h
    · simp at h
    · simp only [Option.some.injEq, Prod.mk.injEq] at h
      exact ⟨_, h.2.symm⟩

theorem handlepacket_no_route_eq (sr : sr_instance) (pkt : List Nat) (len : Nat)
    (interface : String) (hb : bytes_ok pkt) (hl : pkt.length = len)
    (hty : ethertype pkt = ethertype_ip)
    (hv : (check_ip_packet pkt len).1 = true)
    (hnl : sr_get_interface_by_IP sr (ld32 pkt 30) = none)
    (ht : 1 < rd pkt 22) (hd : ld32 pkt 30 ≠ 0)
    (hnm : ∀ e ∈ sr.routing_table, ¬ (e.dest &&& e.mask) = (ld32 pkt 30 &&& e.mask)) :
    sr_handlepacket sr pkt len interface =
      match send_icmp3_error 3 0 sr (fwd_buf pkt) interface with
      | none => none
      | some acts2 => some (fwd_buf pkt, acts2) := by
  obtain ⟨h34, _⟩ := check_ip_packet_true pkt len hb hv
  have hdst : ld32 (fwd_buf pkt) 30 = ld32 pkt 30 :=
    ld32_congr _ _ 30 (fun i h1 h2 => rd_fwd_buf pkt i (by omega) (by omega) (by omega))
  rw [handlepacket_ip sr pkt len interface hty (by omega),
    handle_ip_not_local sr pkt len interface hb hv hnl,
    forward_ip_ttl_gt_one sr pkt len interface hb hl hv ht, hdst]
  unfold longest_prefix_match
  rw [if_neg hd, lpm_loop_no_match _ _ _ _ hnm]

theorem oc_sum_shift (a b : List Nat) (len : Nat) :
    ∀ offa offb, (∀ i, i < len → rd a (offa + i) = rd b (offb + i)) →
      oc_sum a offa len = oc_sum b offb len := by
  induction len using Nat.strong_induction_on with
  | _ len ih =>
    intro offa offb h
    match len with
    | 0 => simp [oc_sum]
    | 1 =>
      have := h 0 (by omega)
      simp only [Nat.add_zero] at this
      simp only [oc_sum, this]
    | n + 2 =>
      have h0 := h 0 (by omega)
      have h1 := h 1 (by omega)
      simp only [Nat.add_zero] at h0
      simp only [oc_sum]
      rw [h0, h1, ih n (by omega) (offa + 2) (offb + 2) (fun i hi => by
        have := h (i + 2) (by omega)
        have e1 : offa + 2 + i = offa + (i + 2) := by omega
        have e2 : offb + 2 + i = offb + (i + 2) := by omega
        rw [e1, e2]; exact this)]

/-- C12 as stated fails: for the datagram to 30.0.0.1, received with TTL 64 and
header checksum 81, 200, the Network Unreachable message quotes TTL 63 and
checksum 82, 200. -/
theorem icmp_error_data_not_as_received :
    frame_noroute.length = 42 ∧
      sr_handlepacket demo_sr frame_noroute 42 "eth1" =
        some (frame_noroute_out, [Action.queue (ipv4 10 0 1 9) frame_noroute_icmp 70 "eth1"]) ∧
      rd frame_noroute_icmp 34 = 3 ∧ rd frame_noroute_icmp 35 = 0 ∧
      rd frame_noroute_icmp (42 + 8) = 63 ∧ rd frame_noroute (14 + 8) = 64 ∧
      rd frame_noroute_icmp (42 + 10) = 82 ∧ rd frame_noroute (14 + 10) = 81 := by
  decide


/-! ### ARP -/

theorem handlepacket_arp (sr : sr_instance) (pkt : List Nat) (len : Nat) (interface : String)
    (hty : ethertype pkt = ethertype_arp) (h14 : 14 ≤ len) :
    sr_handlepacket sr pkt len interface = handle_arp sr pkt interface len := by
  unfold sr_handlepacket
  have h1 : check_eth_packet pkt len = true := by
    unfold check_eth_packet sizeof_sr_ethernet_hdr_t
    rw [if_neg (by omega)]
  rw [h1, hty]
  simp

theorem handle_arp_request_eq (sr : sr_instance) (pkt : List Nat) (len : Nat)
    (interface : String) (my_if in_if : sr_if)
    (hloc : sr_get_interface_by_IP sr (ld32 pkt 38) = some my_if)
    (hop : htons (ld16 pkt 20) = 1)
    (hin : sr_get_interface sr interface = some in_if) :
    handle_arp sr pkt interface len =
      some (pkt, [Action.send (arp_reply_frame my_if in_if pkt len) len interface]) := by
  unfold handle_arp
  simp only [check_arp_packet, hloc, hop, arp_op_request, hin, Bool.true_eq_false, if_false,
    if_true]
  rfl

theorem length_arp_reply_frame (my_if in_if : sr_if) (pkt : List Nat) (len : Nat) :
    (arp_reply_frame my_if in_if pkt len).length = len := by
  simp [arp_reply_frame]

theorem rd_arp_reply_frame_fixed (my_if in_if : sr_if) (pkt : List Nat) (len : Nat)
    (h42 : 42 ≤ len) :
    ethertype (arp_reply_frame my_if in_if pkt len) = ethertype_arp ∧
      ntohs (ld16 (arp_reply_frame my_if in_if pkt len) 20) = 2 := by
  have h12 : 12 < len := by omega
  have h13 : 13 < len := by omega
  have h20 : 20 < len := by omega
  have h21 : 21 < len := by omega
  constructor <;>
  simp [ethertype, ntohs, htons, ld16, arp_reply_frame, rd_st16, rd_st32, rd_memcpy,
    ETHER_ADDR_LEN, ethertype_arp, arp_op_reply, h12, h13, h20, h21]

theorem rd_arp_reply_frame_dhost (my_if in_if : sr_if) (pkt : List Nat) (len : Nat)
    (hb : bytes_ok pkt) (h42 : 42 ≤ len) (i : Nat) (hi : i < 6) :
    rd (arp_reply_frame my_if in_if pkt len) i = rd pkt (6 + i) := by
  have hm := rd_lt_256 pkt hb (6 + i)
  simp only [arp_reply_frame, rd_st16, rd_st32, rd_memcpy, ETHER_ADDR_LEN, length_memcpy,
    length_st16, length_st32, length_malloc]
  repeat rw [if_neg (by omega)]
  rw [if_pos (by omega)]
  have : 6 + (i - 0) = 6 + i := by omega
  rw [this]
  omega

theorem rd_arp_reply_frame_sha (my_if in_if : sr_if) (pkt : List Nat) (len : Nat)
    (hmac : bytes_ok my_if.addr) (h42 : 42 ≤ len) (i : Nat) (hi : i < 6) :
    rd (arp_reply_frame my_if in_if pkt len) (22 + i) = rd my_if.addr i := by
  have hm := rd_lt_256 my_if.addr hmac i
  simp only [arp_reply_frame, rd_st16, rd_st32, rd_memcpy, ETHER_ADDR_LEN, length_memcpy,
    length_st16, length_st32, length_malloc]
  repeat rw [if_neg (by omega)]
  rw [if_pos (by omega)]
  have : 0 + (22 + i - 22) = i := by omega
  rw [this]
  omega

theorem rd_arp_reply_frame_tha (my_if in_if : sr_if) (pkt : List Nat) (len : Nat)
    (hb : bytes_ok pkt) (h42 : 42 ≤ len) (i : Nat) (hi : i < 6) :
    rd (arp_reply_frame my_if in_if pkt len) (32 + i) = rd pkt (22 + i) := by
  have hm := rd_lt_256 pkt hb (22 + i)
  simp only [arp_reply_frame, rd_st16, rd_st32, rd_memcpy, ETHER_ADDR_LEN, length_memcpy,
    length_st16, length_st32, length_malloc]
  repeat rw [if_neg (by omega)]
  rw [if_pos (by omega)]
  have : 22 + (32 + i - 32) = 22 + i := by omega
  rw [this]
  omega

theorem rd_arp_reply_frame_kept (my_if in_if : sr_if) (pkt : List Nat) (len : Nat)
    (hb : bytes_ok pkt) (h42 : 42 ≤ len) (j : Nat) (h1 : 14 ≤ j) (h2 : j < 20) :
    rd (arp_reply_frame my_if in_if pkt len) j = rd pkt j := by
  have hm := rd_lt_256 pkt hb j
  simp only [arp_reply_frame, rd_st16, rd_st32, rd_memcpy, ETHER_ADDR_LEN, length_memcpy,
    length_st16, length_st32, length_malloc]
  repeat rw [if_neg (by omega)]
  rw [if_pos (by omega)]
  have : 0 + (j - 0) = j := by omega
  rw [this]
  omega

theorem ld32_arp_reply_frame (my_if in_if : sr_if) (pkt : List Nat) (len : Nat)
    (hb : bytes_ok pkt) (hip : my_if.ip < 2 ^ 32) (h42 : 42 ≤ len) :
    ld32 (arp_reply_frame my_if in_if pkt len) 28 = my_if.ip ∧
      ld32 (arp_reply_frame my_if in_if pkt len) 38 = ld32 pkt 28 := by
  have h28 : 28 < len := by omega
  have h29 : 29 < len := by omega
  have h30 : 30 < len := by omega
  have h31 : 31 < len := by omega
  have h38 : 38 < len := by omega
  have h39 : 39 < len := by omega
  have h40 : 40 < len := by omega
  have h41 : 41 < len := by omega
  constructor
  · apply ld32_of_rd _ _ _ hip <;>
    simp [arp_reply_frame, rd_st16, rd_st32, rd_memcpy, ETHER_ADDR_LEN, h28, h29, h30, h31]
  · apply ld32_of_rd _ _ _ (ld32_lt pkt hb 28) <;>
    simp [arp_reply_frame, rd_st16, rd_st32, rd_memcpy, ETHER_ADDR_LEN, h38, h39, h40, h41]

/-- C14: an ARP request (EtherType 0x0806, opcode 1, a full 42-byte ARP frame)
whose target protocol address is the IPv4 of the local interface `my_if` makes
`sr_handlepacket` perform exactly one action, the transmission on the inbound
interface of one frame of the length of the request, with Ethernet
destination = the request's Ethernet source, ARP opcode 2, ARP sender
MAC/IPv4 = `my_if`'s MAC/IPv4, ARP target MAC/IPv4 = the request's sender
MAC/IPv4 and the ARP hardware type, protocol type and length fields (bytes
14..19) unchanged; no call touches the ARP cache. -/
theorem handlepacket_arp_request (sr : sr_instance) (pkt : List Nat) (len : Nat)
    (interface : String) (my_if in_if : sr_if) (hb : bytes_ok pkt) (h42 : 42 ≤ len)
    (hty : ethertype pkt = ethertype_arp) (hop : htons (ld16 pkt 20) = 1)
    (hloc : sr_get_interface_by_IP sr (ld32 pkt 38) = some my_if)
    (hin : sr_get_interface sr interface = some in_if)
    (hmac : bytes_ok my_if.addr) (hip : my_if.ip < 2 ^ 32) :
    ∃ ret, sr_handlepacket sr pkt len interface = some (pkt, [Action.send ret len interface]) ∧
      ret.length = len ∧ ethertype ret = ethertype_arp ∧
      (∀ i, i < 6 → rd ret i = rd pkt (6 + i)) ∧
      ntohs (ld16 ret 20) = 2 ∧
      (∀ i, i < 6 → rd ret (22 + i) = rd my_if.addr i) ∧ ld32 ret 28 = my_if.ip ∧
      (∀ i, i < 6 → rd ret (32 + i) = rd pkt (22 + i)) ∧ ld32 ret 38 = ld32 pkt 28 ∧
      ∀ j, 14 ≤ j → j < 20 → rd ret j = rd pkt j := by
  obtain ⟨hety, hopc⟩ := rd_arp_reply_frame_fixed my_if in_if pkt len h42
  obtain ⟨hsip, htip⟩ := ld32_arp_reply_frame my_if in_if pkt len hb hip h42
  refine ⟨arp_reply_frame my_if in_if pkt len, ?_, length_arp_reply_frame my_if in_if pkt len,
    hety, ?_, hopc, ?_, hsip, ?_, htip, ?_⟩
  · rw [handlepacket_arp sr pkt len interface hty (by omega),
      handle_arp_request_eq sr pkt len interface my_if in_if hloc hop hin]
  · exact fun i hi => rd_arp_reply_frame_dhost my_if in_if pkt len hb h42 i hi
  · exact fun i hi => rd_arp_reply_frame_sha my_if in_if pkt len hmac h42 i hi
  · exact fun i hi => rd_arp_reply_frame_tha my_if in_if pkt len hb h42 i hi
  · exact fun j h1 h2 => rd_arp_reply_frame_kept my_if in_if pkt len hb h42 j h1 h2

/-- C14 at the ARP request of 10.0.1.9 for the router's 10.0.1.1, received on `eth1`. -/
theorem handlepacket_arp_request_witness :
    (bytes_ok frame_arp_request ∧ 42 ≤ 42 ∧ ethertype frame_arp_request = ethertype_arp ∧
      htons (ld16 frame_arp_request 20) = 1 ∧
      sr_get_interface_by_IP demo_sr (ld32 frame_arp_request 38) = some demo_eth1 ∧
      sr_get_interface demo_sr "eth1" = some demo_eth1 ∧
      bytes_ok demo_eth1.addr ∧ demo_eth1.ip < 2 ^ 32) ∧
    ∃ ret, sr_handlepacket demo_sr frame_arp_request 42 "eth1" =
        some (frame_arp_request, [Action.send ret 42 "eth1"]) ∧
      ret.length = 42 ∧ ethertype ret = ethertype_arp ∧
      (∀ i, i < 6 → rd ret i = rd frame_arp_request (6 + i)) ∧
      ntohs (ld16 ret 20) = 2 ∧
      (∀ i, i < 6 → rd ret (22 + i) = rd demo_eth1.addr i) ∧ ld32 ret 28 = demo_eth1.ip ∧
      (∀ i, i < 6 → rd ret (32 + i) = rd frame_arp_request (22 + i)) ∧
      ld32 ret 38 = ld32 frame_arp_request 28 ∧
      ∀ j, 14 ≤ j → j < 20 → rd ret j = rd frame_arp_request j :=
  ⟨by decide,
    handlepacket_arp_request demo_sr frame_arp_request 42 "eth1" demo_eth1 demo_eth1
      (by decide) (by decide) (by decide) (by decide) (by decide) (by decide) (by decide)
      (by decide)⟩

theorem handle_arp_reply_eq (sr : sr_instance) (pkt : List Nat) (len : Nat)
    (interface : String) (my_if : sr_if) (req : sr_arpreq)
    (hloc : sr_get_interface_by_IP sr (ld32 pkt 38) = some my_if)
    (hop : htons (ld16 pkt 20) = 2)
    (hins : sr_arpcache_insert sr (bytes_at pkt 22 6) (ld32 pkt 28) = some req) :
    handle_arp sr pkt interface len =
      some (pkt, Action.insert (bytes_at pkt 22 6) (ld32 pkt 28) ::
        (req.packets.map (fun walker =>
          Action.send (memcpy walker.buf 0 pkt 22 6) walker.len walker.iface)
          ++ [Action.destroy req.ip])) := by
  unfold bytes_at at hins
  unfold handle_arp
  simp only [check_arp_packet, hloc, hop, arp_op_request, arp_op_reply, ETHER_ADDR_LEN, hins,
    Bool.true_eq_false, if_false, if_true]
  simp [bytes_at]

/-- C15: an ARP reply (opcode 2) whose target protocol address is a local
interface IPv4 and for which `sr_arpcache_insert` of the sender MAC and IPv4
returns a pending request holding the packets `p_1 .. p_n` makes
`sr_handlepacket` perform the insert, then exactly `n` transmissions, one per
queued packet in queue order, the i-th being `p_i` on its recorded interface
and with its recorded length, its bytes 0..5 replaced by the reply's sender MAC
and every other byte unchanged, and then destroy the request. -/
theorem handlepacket_arp_reply_drains_queue (sr : sr_instance) (pkt : List Nat) (len : Nat)
    (interface : String) (my_if : sr_if) (req : sr_arpreq)
    (hb : bytes_ok pkt) (h42 : 42 ≤ len)
    (hty : ethertype pkt = ethertype_arp) (hop : htons (ld16 pkt 20) = 2)
    (hloc : sr_get_interface_by_IP sr (ld32 pkt 38) = some my_if)
    (hins : sr_arpcache_insert sr (bytes_at pkt 22 6) (ld32 pkt 28) = some req)
    (hq : ∀ w ∈ req.packets, 6 ≤ w.buf.length) :
    ∃ g : sr_packet → List Nat,
      sr_handlepacket sr pkt len interface =
        some (pkt, Action.insert (bytes_at pkt 22 6) (ld32 pkt 28) ::
          (req.packets.map (fun w => Action.send (g w) w.len w.iface)
            ++ [Action.destroy req.ip])) ∧
      ∀ w ∈ req.packets, (g w).length = w.buf.length ∧
        (∀ i, i < 6 → rd (g w) i = rd pkt (22 + i)) ∧
        ∀ j, 6 ≤ j → rd (g w) j = rd w.buf j := by
  refine ⟨fun w => memcpy w.buf 0 pkt 22 6, ?_, ?_⟩
  · rw [handlepacket_arp sr pkt len interface hty (by omega),
      handle_arp_reply_eq sr pkt len interface my_if req hloc hop hins]
  · intro w hw
    have h6 := hq w hw
    refine ⟨by simp, ?_, ?_⟩
    · intro i hi
      have hm := rd_lt_256 pkt hb (22 + i)
      simp only [rd_memcpy]
      rw [if_pos (by omega)]
      have : 22 + (i - 0) = 22 + i := by omega
      rw [this]
      omega
    · intro j hj
      simp only [rd_memcpy]
      rw [if_neg (by omega)]

/-- C15 at the ARP reply of 10.0.2.2 received on `eth2` while two packets wait
for that address. -/
theorem handlepacket_arp_reply_drains_queue_witness :
    (bytes_ok frame_arp_reply ∧ 42 ≤ 42 ∧ ethertype frame_arp_reply = ethertype_arp ∧
      htons (ld16 frame_arp_reply 20) = 2 ∧
      sr_get_interface_by_IP pending_sr (ld32 frame_arp_reply 38) = some demo_eth2 ∧
      sr_arpcache_insert pending_sr (bytes_at frame_arp_reply 22 6) (ld32 frame_arp_reply 28)
        = some pending_req ∧
      pending_req.packets = [queued_pkt1, queued_pkt2] ∧
      (∀ w ∈ pending_req.packets, 6 ≤ w.buf.length)) ∧
    ∃ g : sr_packet → List Nat,
      sr_handlepacket pending_sr frame_arp_reply 42 "eth2" =
        some (frame_arp_reply,
          Action.insert (bytes_at frame_arp_reply 22 6) (ld32 frame_arp_reply 28) ::
          (pending_req.packets.map (fun w => Action.send (g w) w.len w.iface)
            ++ [Action.destroy pending_req.ip])) ∧
      ∀ w ∈ pending_req.packets, (g w).length = w.buf.length ∧
        (∀ i, i < 6 → rd (g w) i = rd frame_arp_reply (22 + i)) ∧
        ∀ j, 6 ≤ j → rd (g w) j = rd w.buf j :=
  ⟨by decide,
    handlepacket_arp_reply_drains_queue pending_sr frame_arp_reply 42 "eth2" demo_eth2
      pending_req (by decide) (by decide) (by decide) (by decide) (by decide) (by decide)
      (by decide)⟩

/-! ### Silent drops -/

/-- C16: `sr_handlepacket` performs no action at all (no transmission, no queueing,
no call that touches the ARP cache) for a frame with length below 14; with an
EtherType other than 0x0806 and 0x0800; IPv4 with length below 34 or a stored
header checksum that differs from the checksum recomputed over the 20-byte
header with the field zeroed; ARP whose target IPv4 matches no local interface
or whose opcode is neither 1 nor 2; valid and locally destined IPv4 whose
protocol is not 1, 6 or 17; valid and locally destined ICMP whose type is not
8 or whose ICMP checksum is invalid. -/
theorem handlepacket_drops_silently (sr : sr_instance) (pkt : List Nat) (len : Nat)
    (interface : String) (hb : bytes_ok pkt)
    (h : len < 14 ∨
      (14 ≤ len ∧ ethertype pkt ≠ ethertype_arp ∧ ethertype pkt ≠ ethertype_ip) ∨
      (14 ≤ len ∧ ethertype pkt = ethertype_ip ∧
        (len < 34 ∨ ld16 pkt 24 ≠ cksum (st16 pkt 24 0) 14 20)) ∨
      (14 ≤ len ∧ ethertype pkt = ethertype_arp ∧
        (sr_get_interface_by_IP sr (ld32 pkt 38) = none ∨
          (htons (ld16 pkt 20) ≠ 1 ∧ htons (ld16 pkt 20) ≠ 2))) ∨
      (ethertype pkt = ethertype_ip ∧ (check_ip_packet pkt len).1 = true ∧
        (∃ local_if, sr_get_interface_by_IP sr (ld32 pkt 30) = some local_if) ∧
        ((rd pkt 23 ≠ 1 ∧ rd pkt 23 ≠ 6 ∧ rd pkt 23 ≠ 17) ∨
          (rd pkt 23 = 1 ∧ (rd pkt 34 ≠ 8 ∨ (check_icmp_packet pkt len).1 = false))))) :
    ∃ buf, sr_handlepacket sr pkt len interface = some (buf, []) := by
  rcases h with h | ⟨h14, h1, h2⟩ | ⟨h14, hty, hbad⟩ | ⟨h14, hty, harp⟩ |
    ⟨hty, hv, ⟨local_if, hloc⟩, hp⟩
  · refine ⟨pkt, ?_⟩
    have hc : check_eth_packet pkt len = false := by
      unfold check_eth_packet sizeof_sr_ethernet_hdr_t
      rw [if_pos h]
    unfold sr_handlepacket
    rw [hc]
    rfl
  · refine ⟨pkt, ?_⟩
    have hc : check_eth_packet pkt len = true := by
      unfold check_eth_packet sizeof_sr_ethernet_hdr_t
      rw [if_neg (by omega)]
    unfold sr_handlepacket
    rw [hc, if_pos rfl, if_neg h1, if_neg h2]
  · have hchk : (check_ip_packet pkt len).1 = false := by
      unfold check_ip_packet
      simp only [sizeof_sr_ethernet_hdr_t, sizeof_sr_ip_hdr_t]
      by_cases hlt : len < 14 + 20
      · rw [if_pos hlt]
      · rw [if_neg hlt]
        rcases hbad with hbad | hbad
        · omega
        · rw [if_pos hbad]
    refine ⟨(check_ip_packet pkt len).2, ?_⟩
    rw [handlepacket_ip sr pkt len interface hty h14]
    unfold handle_ip
    simp only [hchk, if_true]
  · rw [handlepacket_arp sr pkt len interface hty h14]
    refine ⟨pkt, ?_⟩
    unfold handle_arp
    simp only [check_arp_packet, Bool.true_eq_false, if_false]
    rcases harp with hnone | ⟨ho1, ho2⟩
    · rw [hnone]
    · cases hl : sr_get_interface_by_IP sr (ld32 pkt 38) with
      | none => rfl
      | some my_if =>
        simp only [arp_op_request, arp_op_reply]
        rw [if_neg ho1, if_neg ho2]
  · obtain ⟨h34, hbuf⟩ := check_ip_packet_true pkt len hb hv
    refine ⟨pkt, ?_⟩
    rw [handlepacket_ip sr pkt len interface hty (by omega)]
    unfold handle_ip
    simp only [hv, hbuf, hloc, Bool.true_eq_false, if_false]
    rcases hp with ⟨p1, p6, p17⟩ | ⟨p1, hicmp⟩
    · rw [if_neg p1, if_neg (by rintro (h | h) <;> omega)]
    · rw [if_pos p1]
      rcases hicmp with ht | hc
      · rw [if_pos ht]
      · by_cases ht : rd pkt 34 ≠ 8
        · rw [if_pos ht]
        · rw [if_neg ht]
          simp only [hc, if_true, check_icmp_packet_buf pkt len hb]

/-- C16 at the datagram `frame_bad_sum`, whose stored header checksum is wrong. -/
theorem handlepacket_drops_silently_witness :
    (bytes_ok frame_bad_sum ∧ 14 ≤ 42 ∧ ethertype frame_bad_sum = ethertype_ip ∧
      ld16 frame_bad_sum 24 ≠ cksum (st16 frame_bad_sum 24 0) 14 20) ∧
    ∃ buf, sr_handlepacket demo_sr frame_bad_sum 42 "eth1" = some (buf, []) :=
  ⟨by decide,
    handlepacket_drops_silently demo_sr frame_bad_sum 42 "eth1" (by decide)
      (Or.inr (Or.inr (Or.inl ⟨by decide, by decide, Or.inr (by decide)⟩)))⟩


theorem forward_ip_eq (sr : sr_instance) (pkt : List Nat) (len : Nat)
    (interface : String) (hb : bytes_ok pkt) (hl : pkt.length = len)
    (hv : (check_ip_packet pkt len).1 = true) :
    forward_ip sr pkt len interface =
      match (if rd pkt 22 = 1 then
          send_icmp3_error 11 0 sr (wr pkt 22 (rd pkt 22 + 255)) interface else some []) with
      | none => none
      | some acts =>
        match longest_prefix_match sr (ld32 (fwd_buf pkt) 30) with
        | none => none
        | some (some my_int) =>
          match sr_get_interface sr my_int.interface with
          | none => none
          | some my_if =>
            match sr_arpcache_lookup sr
                (ld32 (memcpy (fwd_buf pkt) 6 my_if.addr 0 ETHER_ADDR_LEN) 30) with
            | some arp_entry =>
              some (memcpy (memcpy (fwd_buf pkt) 6 my_if.addr 0 ETHER_ADDR_LEN) 0
                      arp_entry.mac 0 ETHER_ADDR_LEN,
                acts ++ [Action.send (memcpy (memcpy (fwd_buf pkt) 6 my_if.addr 0 ETHER_ADDR_LEN) 0
                      arp_entry.mac 0 ETHER_ADDR_LEN) len my_if.name])
            | none =>
              some (memcpy (fwd_buf pkt) 6 my_if.addr 0 ETHER_ADDR_LEN,
                acts ++ [Action.queue (ld32 (memcpy (fwd_buf pkt) 6 my_if.addr 0 ETHER_ADDR_LEN) 30)
                  (memcpy (fwd_buf pkt) 6 my_if.addr 0 ETHER_ADDR_LEN) len my_if.name])
        | some none =>
          match send_icmp3_error 3 0 sr (fwd_buf pkt) interface with
          | none => none
          | some acts2 => some (fwd_buf pkt, acts ++ acts2) := by
  obtain ⟨h34, hbuf⟩ := check_ip_packet_true pkt len hb hv
  have h256 := rd_lt_256 pkt hb 22
  have hrd : rd (wr pkt 22 (rd pkt 22 + 255)) 22 = (rd pkt 22 + 255) % 256 := by
    rw [rd_wr, if_pos ⟨rfl, by omega⟩]
  by_cases h1 : rd pkt 22 = 1
  · have httl : rd (wr pkt 22 (rd pkt 22 + 255)) 22 = 0 := by rw [hrd]; omega
    rw [if_pos h1]
    unfold forward_ip
    simp only [hv, hbuf, httl, if_true, Bool.true_eq_false, if_false]
    rfl
  · have httl : ¬ rd (wr pkt 22 (rd pkt 22 + 255)) 22 = 0 := by rw [hrd]; omega
    rw [if_neg h1]
    unfold forward_ip
    simp only [hv, hbuf, httl, if_true, Bool.true_eq_false, if_false]
    rfl

/-- C12 (as amended): the 28-byte data field of every ICMP error that
`sr_handlepacket` emits for a valid frame of at least 42 bytes quotes the IP
datagram as it stands in the receive buffer when the error is raised.
Port Unreachable (locally destined, protocol 6 or 17): bytes 14..41 of the
inbound frame, unchanged.  Time Exceeded (not locally destined, inbound TTL 1;
the message built by the call at line 308, first in the trace of every run
that returns, and a run returns when the destination is non-zero and the
interface of a selected route exists): the same bytes except the quoted TTL,
which is the decremented TTL 0.  Network Unreachable (not locally destined,
`longest_prefix_match` selects nothing, whatever the inbound TTL; the last
action, after the Time Exceeded message when the inbound TTL is 1): the same
bytes except the quoted TTL, which is the inbound TTL minus 1 modulo 256, and
the quoted header checksum, which is rewritten and verifies for the quoted
header. -/
theorem icmp_error_data_quotes_buffer (sr : sr_instance) (pkt : List Nat) (len : Nat)
    (interface : String) (in_if : sr_if) (hb : bytes_ok pkt) (hl : pkt.length = len)
    (h42 : 42 ≤ len) (hty : ethertype pkt = ethertype_ip)
    (hv : (check_ip_packet pkt len).1 = true)
    (hin : sr_get_interface sr interface = some in_if) :
    ((∃ local_if, sr_get_interface_by_IP sr (ld32 pkt 30) = some local_if) →
      (rd pkt 23 = 6 ∨ rd pkt 23 = 17) →
      ∃ a, sr_handlepacket sr pkt len interface = some (pkt, [a]) ∧ a.is_emit = true ∧
        rd a.frame 34 = 3 ∧ rd a.frame 35 = 3 ∧
        ∀ i, i < 28 → rd a.frame (42 + i) = rd pkt (14 + i)) ∧
    (sr_get_interface_by_IP sr (ld32 pkt 30) = none → rd pkt 22 = 1 →
      ∃ a, send_icmp3_error 11 0 sr (wr pkt 22 (rd pkt 22 + 255)) interface = some [a] ∧
        a.is_emit = true ∧ rd a.frame 34 = 11 ∧ rd a.frame 35 = 0 ∧
        rd a.frame (42 + 8) = 0 ∧
        (∀ i, i < 28 → i ≠ 8 → rd a.frame (42 + i) = rd pkt (14 + i)) ∧
        (∀ out acts, sr_handlepacket sr pkt len interface = some (out, acts) →
          ∃ rest, acts = a :: rest) ∧
        (ld32 pkt 30 ≠ 0 →
          (∀ rt, longest_prefix_match sr (ld32 pkt 30) = some (some rt) →
            ∃ my_if, sr_get_interface sr rt.interface = some my_if) →
          ∃ out rest, sr_handlepacket sr pkt len interface = some (out, a :: rest))) ∧
    (sr_get_interface_by_IP sr (ld32 pkt 30) = none →
      longest_prefix_match sr (ld32 pkt 30) = some none →
      ∃ out te a, sr_handlepacket sr pkt len interface = some (out, te ++ [a]) ∧
        (rd pkt 22 ≠ 1 → te = []) ∧ te.length ≤ 1 ∧
        a.is_emit = true ∧ rd a.frame 34 = 3 ∧ rd a.frame 35 = 0 ∧
        rd a.frame (42 + 8) = (rd pkt 22 + 255) % 256 ∧ cksum a.frame 42 20 = 0 ∧
        ∀ i, i < 28 → i ≠ 8 → i ≠ 10 → i ≠ 11 → rd a.frame (42 + i) = rd pkt (14 + i)) := by
  obtain ⟨h34, _⟩ := check_ip_packet_true pkt len hb hv
  have h256 := rd_lt_256 pkt hb 22
  have hdst : ld32 (fwd_buf pkt) 30 = ld32 pkt 30 :=
    ld32_congr _ _ 30 (fun i h1 h2 => rd_fwd_buf pkt i (by omega) (by omega) (by omega))
  have hrun : sr_get_interface_by_IP sr (ld32 pkt 30) = none →
      sr_handlepacket sr pkt len interface = forward_ip sr pkt len interface := fun hnl => by
    rw [handlepacket_ip sr pkt len interface hty (by omega),
      handle_ip_not_local sr pkt len interface hb hv hnl]
  have hfe := forward_ip_eq sr pkt len interface hb hl hv
  rw [hdst] at hfe
  refine ⟨?_, ?_, ?_⟩
  · rintro ⟨local_if, hloc⟩ hp
    obtain ⟨a, ha, hemit, _, _, _, hrd⟩ := send_icmp3_error_spec 3 3 sr pkt interface in_if hin
    refine ⟨a, ?_, hemit, ?_, ?_, ?_⟩
    · rw [handlepacket_ip sr pkt len interface hty (by omega),
        handle_ip_local_tcp_udp sr pkt len interface local_if hb hv hloc hp, ha]
    · rw [hrd 34 (by omega)]; exact icmp3_frame_type 3 3 in_if pkt
    · rw [hrd 35 (by omega)]; exact icmp3_frame_code 3 3 in_if pkt
    · intro i hi
      rw [hrd (42 + i) (by omega)]
      exact icmp3_frame_data 3 3 in_if pkt hb i hi
  · intro hnl ht
    obtain ⟨a, ha, hemit, _, _, _, hrd⟩ :=
      send_icmp3_error_spec 11 0 sr (wr pkt 22 (rd pkt 22 + 255)) interface in_if hin
    have hbo : bytes_ok (wr pkt 22 (rd pkt 22 + 255)) := bytes_ok_wr _ hb _ _
    rw [if_pos ht, ha] at hfe
    simp only [] at hfe
    refine ⟨a, ha, hemit, ?_, ?_, ?_, ?_, ?_, ?_⟩
    · rw [hrd 34 (by omega)]; exact icmp3_frame_type 11 0 in_if _
    · rw [hrd 35 (by omega)]; exact icmp3_frame_code 11 0 in_if _
    · rw [hrd (42 + 8) (by omega), icmp3_frame_data 11 0 in_if _ hbo 8 (by omega), rd_wr,
        if_pos ⟨rfl, by omega⟩, ht]
    · intro i hi h8
      rw [hrd (42 + i) (by omega), icmp3_frame_data 11 0 in_if _ hbo i hi, rd_wr,
        if_neg (by omega)]
    · intro out acts h
      rw [hrun hnl, hfe] at h
      split at h
      · simp at h
      · split at h
        · simp at h
        · split at h
          · simp only [Option.some.injEq, Prod.mk.injEq] at h
            exact ⟨_, h.2.symm⟩
          · simp only [Option.some.injEq, Prod.mk.injEq] at h
            exact ⟨_, h.2.symm⟩
      · split at h
        · simp at h
        · simp only [Option.some.injEq, Prod.mk.injEq] at h
          exact ⟨_, h.2.symm⟩
    · intro hd hifs
      rw [hrun hnl, hfe]
      cases hlpm : longest_prefix_match sr (ld32 pkt 30) with
      | none =>
        unfold longest_prefix_match at hlpm
        rw [if_neg hd] at hlpm
        simp at hlpm
      | some o =>
        cases o with
        | none =>
          obtain ⟨a2, ha2, _⟩ := send_icmp3_error_spec 3 0 sr (fwd_buf pkt) interface in_if hin
          simp only [ha2]
          exact ⟨_, _, rfl⟩
        | some rt =>
          obtain ⟨my_if, hmy⟩ := hifs rt hlpm
          simp only [hmy]
          cases hlk : sr_arpcache_lookup sr
              (ld32 (memcpy (fwd_buf pkt) 6 my_if.addr 0 ETHER_ADDR_LEN) 30) with
          | none => exact ⟨_, _, rfl⟩
          | some e => exact ⟨_, _, rfl⟩
  · intro hnl hlpm
    obtain ⟨a, ha, hemit, _, _, _, hrd⟩ :=
      send_icmp3_error_spec 3 0 sr (fwd_buf pkt) interface in_if hin
    have hbo := bytes_ok_fwd_buf pkt hb
    have hdata : ∀ i, i < 28 → rd a.frame (42 + i) = rd (fwd_buf pkt) (14 + i) := by
      intro i hi
      rw [hrd (42 + i) (by omega)]
      exact icmp3_frame_data 3 0 in_if _ hbo i hi
    have hprops : rd a.frame 34 = 3 ∧ rd a.frame 35 = 0 ∧
        rd a.frame (42 + 8) = (rd pkt 22 + 255) % 256 ∧ cksum a.frame 42 20 = 0 ∧
        ∀ i, i < 28 → i ≠ 8 → i ≠ 10 → i ≠ 11 → rd a.frame (42 + i) = rd pkt (14 + i) := by
      refine ⟨?_, ?_, ?_, ?_, ?_⟩
      · rw [hrd 34 (by omega)]; exact icmp3_frame_type 3 0 in_if _
      · rw [hrd 35 (by omega)]; exact icmp3_frame_code 3 0 in_if _
      · rw [hdata 8 (by omega), rd_fwd_buf_ttl pkt (by omega)]
      · have hfw := cksum_fwd_buf pkt hb (by omega)
        unfold cksum at hfw ⊢
        rw [oc_sum_shift a.frame (fwd_buf pkt) 20 42 14 (fun i hi => hdata i (by omega))]
        exact hfw
      · intro i hi h8 h10 h11
        rw [hdata i hi, rd_fwd_buf pkt (14 + i) (by omega) (by omega) (by omega)]
    rw [hlpm] at hfe
    simp only [ha] at hfe
    by_cases h1 : rd pkt 22 = 1
    · obtain ⟨a1, ha1, _⟩ :=
        send_icmp3_error_spec 11 0 sr (wr pkt 22 (rd pkt 22 + 255)) interface in_if hin
      rw [if_pos h1, ha1] at hfe
      refine ⟨fwd_buf pkt, [a1], a, ?_, fun h => absurd h1 h, by simp, hemit, hprops⟩
      rw [hrun hnl, hfe]
    · rw [if_neg h1] at hfe
      refine ⟨fwd_buf pkt, [], a, ?_, fun _ => rfl, by simp, hemit, hprops⟩
      rw [hrun hnl, hfe]

/-- C12 as amended, at the datagram to 20.1.2.3 arriving with TTL 1 at a router
whose only route is the default route (which `longest_prefix_match` does not
select): a Time Exceeded message quoting TTL 0, then a Network Unreachable
message quoting TTL 0 and a rewritten checksum; and at the same datagram
arriving with TTL 0: a Network Unreachable message quoting TTL 255. -/
theorem icmp_error_data_quotes_buffer_witness :
    (bytes_ok frame_ttl1 ∧ frame_ttl1.length = 42 ∧ 42 ≤ 42 ∧
      ethertype frame_ttl1 = ethertype_ip ∧ (check_ip_packet frame_ttl1 42).1 = true ∧
      sr_get_interface default_sr "eth1" = some demo_eth1 ∧
      sr_get_interface_by_IP default_sr (ld32 frame_ttl1 30) = none ∧
      rd frame_ttl1 22 = 1 ∧
      longest_prefix_match default_sr (ld32 frame_ttl1 30) = some none ∧
      bytes_ok frame_ttl0 ∧ frame_ttl0.length = 42 ∧
      ethertype frame_ttl0 = ethertype_ip ∧ (check_ip_packet frame_ttl0 42).1 = true ∧
      sr_get_interface_by_IP default_sr (ld32 frame_ttl0 30) = none ∧
      rd frame_ttl0 22 = 0 ∧
      longest_prefix_match default_sr (ld32 frame_ttl0 30) = some none) ∧
    (∃ a, send_icmp3_error 11 0 default_sr (wr frame_ttl1 22 (rd frame_ttl1 22 + 255)) "eth1"
          = some [a] ∧
        a.is_emit = true ∧ rd a.frame 34 = 11 ∧ rd a.frame 35 = 0 ∧
        rd a.frame (42 + 8) = 0 ∧
        (∀ i, i < 28 → i ≠ 8 → rd a.frame (42 + i) = rd frame_ttl1 (14 + i)) ∧
        (∀ out acts, sr_handlepacket default_sr frame_ttl1 42 "eth1" = some (out, acts) →
          ∃ rest, acts = a :: rest) ∧
        (ld32 frame_ttl1 30 ≠ 0 →
          (∀ rt, longest_prefix_match default_sr (ld32 frame_ttl1 30) = some (some rt) →
            ∃ my_if, sr_get_interface default_sr rt.interface = some my_if) →
          ∃ out rest, sr_handlepacket default_sr frame_ttl1 42 "eth1" = some (out, a :: rest))) ∧
    (∃ out te a, sr_handlepacket default_sr frame_ttl1 42 "eth1" = some (out, te ++ [a]) ∧
        (rd frame_ttl1 22 ≠ 1 → te = []) ∧ te.length ≤ 1 ∧
        a.is_emit = true ∧ rd a.frame 34 = 3 ∧ rd a.frame 35 = 0 ∧
        rd a.frame (42 + 8) = (rd frame_ttl1 22 + 255) % 256 ∧ cksum a.frame 42 20 = 0 ∧
        ∀ i, i < 28 → i ≠ 8 → i ≠ 10 → i ≠ 11 →
          rd a.frame (42 + i) = rd frame_ttl1 (14 + i)) ∧
    (∃ out te a, sr_handlepacket default_sr frame_ttl0 42 "eth1" = some (out, te ++ [a]) ∧
        (rd frame_ttl0 22 ≠ 1 → te = []) ∧ te.length ≤ 1 ∧
        a.is_emit = true ∧ rd a.frame 34 = 3 ∧ rd a.frame 35 = 0 ∧
        rd a.frame (42 + 8) = (rd frame_ttl0 22 + 255) % 256 ∧ cksum a.frame 42 20 = 0 ∧
        ∀ i, i < 28 → i ≠ 8 → i ≠ 10 → i ≠ 11 →
          rd a.frame (42 + i) = rd frame_ttl0 (14 + i)) :=
  ⟨by decide,
    (icmp_error_data_quotes_buffer default_sr frame_ttl1 42 "eth1" demo_eth1
      (by decide) (by decide) (by decide) (by decide) (by decide) (by decide)).2.1
      (by decide) (by decide),
    (icmp_error_data_quotes_buffer default_sr frame_ttl1 42 "eth1" demo_eth1
      (by decide) (by decide) (by decide) (by decide) (by decide) (by decide)).2.2
      (by decide) (by decide),
    (icmp_error_data_quotes_buffer default_sr frame_ttl0 42 "eth1" demo_eth1
      (by decide) (by decide) (by decide) (by decide) (by decide) (by decide)).2.2
      (by decide) (by decide)⟩

end SrRouter
